import Mathlib

/-!
# IdeaMagix telemedicine server: a shallow embedding of `src/index.js`

The server keeps three in-memory lists (doctors, patients, consultations) and
two global session slots.  Every route handler of `src/index.js` is embedded
as a pure function from the state before the request to a response and the
state after it.

Modelling conventions.

* JavaScript values are the type `Val`.  Numbers are the integers (ids,
  lengths and clock values, all far below 2^53 and printed in plain decimal)
  and `NaN`; the handlers only test numbers for equality and truthiness and
  print them, so fractional numbers, which only a request body or
  `parseFloat` could bring in, behave like any other non-zero number.
* Records (doctors, patients, consultations, request bodies) are JavaScript
  objects: association lists from keys to values, read with `getKey` and
  written with `setKey`.
* `===` is `strictEq`.  Objects, arrays and dates compare by reference; every
  comparison the handlers make has a freshly parsed request value, a literal
  or a record id on one side, and record ids are primitive (signup assigns
  `length + 1`), so two distinct references are compared whenever a
  non-primitive reaches `===` and the answer is `false`.
* `==` against a path parameter, `parseFloat`, `parseInt`, the conversion of a
  non-primitive to a string, the locale formatting of a date, `path.extname`
  and what the PDF library does with a text argument that is not a string
  are runtime and library behaviour, not code of the repository:
  they are the fields of `Runtime`, and every theorem holds for every runtime.
  A conversion that raises a `TypeError` (an object whose own `toString` is
  not callable) is the answer `none`.
* The file is an ES module, hence strict mode: assigning a property on a
  primitive and calling a missing method raise a `TypeError`. An error raised
  in a handler or forwarded by the upload middleware is answered by Express
  with status 500 (`Resp.serverError`).
* The route `uploadPrescriptionPDF` is the upload middleware
  `upload.single("pdfFile")`, with the file filter and size limit the
  repository configures, followed by the handler.
* One clock instant `now` is supplied per request.
-/

namespace IdeaMagix

/-! ## JavaScript values -/

/-- JavaScript values as the handlers see them. Arrays and dates carry the
named properties that strict-mode code may still attach to them. -/
inductive Val where
  | undef
  | null
  | bool (b : Bool)
  | num (n : Int)
  | nan
  | str (s : String)
  | obj (props : List (String × Val))
  | arr (items : List Val) (props : List (String × Val))
  | date (ms : Int) (props : List (String × Val))

/-- A JavaScript object: its own properties in insertion order. -/
abbrev Obj := List (String × Val)

/-- Property read `o.k` on an object: `undefined` when the key is missing. -/
def getKey : Obj → String → Val
  | [], _ => Val.undef
  | (k, v) :: rest, key => if k = key then v else getKey rest key

/-- Whether the object has the own property `key`. -/
def hasKey : Obj → String → Bool
  | [], _ => false
  | (k, _) :: rest, key => if k = key then true else hasKey rest key

/-- Property write `o.k = v`: replaces the value in place, or appends the key. -/
def setKey : Obj → String → Val → Obj
  | [], key, v => [(key, v)]
  | (k, w) :: rest, key, v => if k = key then (k, v) :: rest else (k, w) :: setKey rest key v

/-- Object spread `{ ...base, ...extra }`: every own property of `extra`
is written over `base`, in order. -/
def spread (base extra : Obj) : Obj :=
  extra.foldl (fun o kv => setKey o kv.1 kv.2) base

/-- JavaScript truthiness (`ToBoolean`). -/
def truthy : Val → Bool
  | Val.undef => false
  | Val.null => false
  | Val.bool b => b
  | Val.num n => n != 0
  | Val.nan => false
  | Val.str s => s != ""
  | Val.obj _ => true
  | Val.arr _ _ => true
  | Val.date _ _ => true

/-- The operator `a || b`. -/
def orElse (a b : Val) : Val := if truthy a then a else b

/-- The operator `a === b`; distinct references are never equal, and `NaN`
equals nothing. -/
def strictEq : Val → Val → Bool
  | Val.undef, Val.undef => true
  | Val.null, Val.null => true
  | Val.bool a, Val.bool b => a == b
  | Val.num a, Val.num b => a == b
  | Val.str a, Val.str b => a == b
  | _, _ => false

/-- Property read `v.k` on an arbitrary value, for the keys the handlers read
(none of them is an index, `length` or a built-in method name). -/
def Val.get : Val → String → Val
  | Val.obj p, k => getKey p k
  | Val.arr _ p, k => getKey p k
  | Val.date _ p, k => getKey p k
  | _, _ => Val.undef

/-- Property write `v.k = x` in strict mode: `none` is the `TypeError` raised
when `v` is a primitive. -/
def Val.setProp : Val → String → Val → Option Val
  | Val.obj p, k, x => some (Val.obj (setKey p k x))
  | Val.arr i p, k, x => some (Val.arr i (setKey p k x))
  | Val.date t p, k, x => some (Val.date t (setKey p k x))
  | _, _, _ => none

/-- Method call `v.push(x)`: only arrays have a callable `push`; `none` is
the `TypeError` for every other value. -/
def Val.push : Val → Val → Option Val
  | Val.arr items p, x => some (Val.arr (items ++ [x]) p)
  | _, _ => none

/-- The value of a session slot or of `req.file`: `null`/`undefined` when empty. -/
def optVal : Option Obj → Val
  | none => Val.null
  | some o => Val.obj o

/-- Language runtime behaviour the handlers rely on. -/
structure Runtime where
  /-- The comparison `v == param` of a stored value with a path parameter. -/
  looseEq : Val → String → Bool
  /-- The call `parseFloat(v)`; `none` when converting `v` raises a `TypeError`. -/
  parseFloat : Val → Option Val
  /-- The call `parseInt(v)`; `none` when converting `v` raises a `TypeError`. -/
  parseInt : Val → Option Val
  /-- String conversion of an object, array or date inside a template
  literal; `none` when it raises a `TypeError`. -/
  objToString : Val → Option String
  /-- The call `new Date(v).toLocaleDateString(en-IN, long format)`; `none`
  when converting `v` raises a `TypeError`. -/
  formatDate : Val → Option String
  /-- The call `path.extname(name)`. -/
  extname : String → String
  /-- Whether `doc.text(v)` raises inside the PDF library for a value `v`
  that is not a string. -/
  textRaises : Val → Bool

/-- String conversion inside a template literal; `none` is a `TypeError`. -/
def toStr (rt : Runtime) : Val → Option String
  | Val.undef => some "undefined"
  | Val.null => some "null"
  | Val.bool true => some "true"
  | Val.bool false => some "false"
  | Val.num n => some (toString n)
  | Val.nan => some "NaN"
  | Val.str s => some s
  | v => rt.objToString v

/-- The text of a value that converts; the empty string stands in when the
conversion raises. -/
def textOf (rt : Runtime) (v : Val) : String := (toStr rt v).getD ""

/-- Whether the value is a primitive that `===` compares by value:
`undefined`, `null`, a boolean, a number other than `NaN`, or a string. -/
def isScalar : Val → Bool
  | Val.undef => true
  | Val.null => true
  | Val.bool _ => true
  | Val.num _ => true
  | Val.str _ => true
  | _ => false

/-! ## Strings -/

/-- The characters removed by `String.prototype.trim`: the ECMAScript
`WhiteSpace` and `LineTerminator` code points. -/
def isJsSpace (c : Char) : Bool :=
  let n := c.toNat
  n == 0x09 || n == 0x0A || n == 0x0B || n == 0x0C || n == 0x0D || n == 0x20
    || n == 0xA0 || n == 0x1680 || (0x2000 ≤ n && n ≤ 0x200A) || n == 0x2028
    || n == 0x2029 || n == 0x202F || n == 0x205F || n == 0x3000 || n == 0xFEFF

/-- Trimming of a character list at both ends. -/
def trimChars (cs : List Char) : List Char :=
  ((cs.dropWhile isJsSpace).reverse.dropWhile isJsSpace).reverse

/-- The method `s.trim()`. -/
def jsTrim (s : String) : String := String.mk (trimChars s.data)

/-- The method `s.split(",")` on the characters of a string. -/
def splitComma : List Char → List (List Char)
  | [] => [[]]
  | c :: cs =>
    match splitComma cs with
    | [] => [[]]
    | seg :: rest => if c = ',' then [] :: seg :: rest else (c :: seg) :: rest

/-- The expression `h ? h.split(",").map(s => s.trim()).filter(s => s) : []`
of patient signup; `none` is the `TypeError` for a truthy non-string. -/
def historyList (h : Val) : Option Val :=
  if truthy h then
    match h with
    | Val.str s =>
      some (Val.arr
        ((((splitComma s.data).map trimChars).filter (fun cs => !cs.isEmpty)).map
          (fun cs => Val.str (String.mk cs))) [])
    | _ => none
  else some (Val.arr [] [])

/-- The test `!v || v.trim() === ""` of submitPrescription: `some true` when
the value is blank, `none` for the `TypeError` on a truthy non-string. -/
def careBlank (v : Val) : Option Bool :=
  if truthy v then
    match v with
    | Val.str s => some (jsTrim s == "")
    | _ => none
  else some true

/-! ## Server state and responses -/

/-- The module-level variables of the server and what it has put under
`public/prescriptions`: `written` logs the files the prescription renderer
has opened, each with the text items drawn into it, and `uploads` the names
of the files the upload middleware has stored (both oldest first). -/
structure State where
  doctors : List Obj
  patients : List Obj
  consultations : List Obj
  currentDoctor : Option Obj
  currentPatient : Option Obj
  written : List (String × List Val)
  uploads : List String

/-- What a handler sends back. -/
inductive Resp where
  | json (status : Nat) (body : Obj)
  | send (status : Nat) (text : String)
  | redirect (target : String)
  | render (view : String) (locals : Obj)
  | pdf (fileName : String) (items : List Val)
  | serverError

/-- The HTTP status of a response. -/
def Resp.status : Resp → Nat
  | Resp.json st _ => st
  | Resp.send st _ => st
  | Resp.redirect _ => 302
  | Resp.render _ _ => 200
  | Resp.pdf _ _ => 200
  | Resp.serverError => 500

/-- The body `{ error: msg }`. -/
def errorBody (msg : String) : Obj := [("error", Val.str msg)]

/-- In-place update of the element `Array.prototype.find` returns: the first
one satisfying `p`. -/
def modifyFirst {α : Type} (p : α → Bool) (f : α → α) : List α → List α
  | [] => []
  | x :: xs => if p x then f x :: xs else x :: modifyFirst p f xs

/-- The lookup `consultations.find(c => c.id == req.params.consultationId)`. -/
def findConsultation (rt : Runtime) (cs : List Obj) (cid : String) : Option Obj :=
  cs.find? (fun c => rt.looseEq (getKey c "id") cid)

/-- The lookup `doctors.find(d => d.id == req.params.doctorId)`. -/
def findDoctor (rt : Runtime) (ds : List Obj) (did : String) : Option Obj :=
  ds.find? (fun d => rt.looseEq (getKey d "id") did)

/-- Writes `c2` over the consultation the lookup for `cid` returned. -/
def storeConsultation (rt : Runtime) (cid : String) (c2 : Obj) (s : State) : State :=
  { s with consultations :=
      modifyFirst (fun c => rt.looseEq (getKey c "id") cid) (fun _ => c2) s.consultations }

/-! ## Sign-up, sign-in, logout -/

/-- Handler `POST /doctorSignUp`. -/
def doctorSignUp (rt : Runtime) (now : Int) (body : Obj) (s : State) : Resp × State :=
  let email := getKey body "email"
  let phone := getKey body "phone"
  if (s.doctors.find? (fun d => strictEq (getKey d "email") email)).isSome then
    (Resp.json 400 (errorBody "Email already exists"), s)
  else if (s.doctors.find? (fun d => strictEq (getKey d "phone") phone)).isSome then
    (Resp.json 400 (errorBody "Phone already exists"), s)
  else
    match rt.parseFloat (getKey body "yearsOfExperience") with
    | none => (Resp.serverError, s)
    | some years =>
      let newDoc : Obj :=
        [ ("id", Val.num (s.doctors.length + 1)),
          ("name", getKey body "name"),
          ("email", email),
          ("password", getKey body "password"),
          ("phone", phone),
          ("specialty", getKey body "specialty"),
          ("yearsOfExperience", years),
          ("profilePicture", orElse (getKey body "profilePicture") Val.null),
          ("createdAt", Val.date now []) ]
      (Resp.redirect "/doctorDashboard",
        { s with doctors := s.doctors ++ [newDoc], currentDoctor := some newDoc })

/-- Handler `POST /doctorSignIn`. -/
def doctorSignIn (body : Obj) (s : State) : Resp × State :=
  match s.doctors.find? (fun d =>
      strictEq (getKey d "email") (getKey body "email")
        && strictEq (getKey d "password") (getKey body "password")) with
  | some doc => (Resp.redirect "/doctorDashboard", { s with currentDoctor := some doc })
  | none => (Resp.json 401 (errorBody "Wrong email or password"), s)

/-- Handler `POST /patientSignUp`. -/
def patientSignUp (rt : Runtime) (now : Int) (body : Obj) (s : State) : Resp × State :=
  let email := getKey body "email"
  let phone := getKey body "phone"
  if (s.patients.find? (fun p => strictEq (getKey p "email") email)).isSome then
    (Resp.json 400 (errorBody "Email already exists"), s)
  else if (s.patients.find? (fun p => strictEq (getKey p "phone") phone)).isSome then
    (Resp.json 400 (errorBody "Phone already exists"), s)
  else
    match historyList (getKey body "surgeryHistory") with
    | none => (Resp.serverError, s)
    | some surgeries =>
      match historyList (getKey body "illnessHistory") with
      | none => (Resp.serverError, s)
      | some illnesses =>
        match rt.parseInt (getKey body "age") with
        | none => (Resp.serverError, s)
        | some age =>
          let newPatient : Obj :=
            [ ("id", Val.num (s.patients.length + 1)),
              ("name", getKey body "name"),
              ("email", email),
              ("password", getKey body "password"),
              ("age", age),
              ("phone", phone),
              ("profilePicture", orElse (getKey body "profilePicture") Val.null),
              ("surgeryHistory", surgeries),
              ("illnessHistory", illnesses),
              ("createdAt", Val.date now []) ]
          (Resp.redirect "/patientDashboard",
            { s with patients := s.patients ++ [newPatient],
                     currentPatient := some newPatient })

/-- Handler `POST /patientSignIn`. -/
def patientSignIn (body : Obj) (s : State) : Resp × State :=
  match s.patients.find? (fun p =>
      strictEq (getKey p "email") (getKey body "email")
        && strictEq (getKey p "password") (getKey body "password")) with
  | some patient => (Resp.redirect "/patientDashboard", { s with currentPatient := some patient })
  | none => (Resp.json 401 (errorBody "Wrong email or password"), s)

/-- Handler `GET /doctorLogout`. -/
def doctorLogout (s : State) : Resp × State :=
  (Resp.redirect "/", { s with currentDoctor := none })

/-- Handler `GET /patientLogout`. -/
def patientLogout (s : State) : Resp × State :=
  (Resp.redirect "/", { s with currentPatient := none })

/-! ## Consultations and prescriptions -/

/-- Handler `POST /submitConsultation/:doctorId`. The request body is spread
after the fields the server computes and before `submittedAt`. -/
def submitConsultation (rt : Runtime) (now : Int) (did : String) (body : Obj) (s : State) :
    Resp × State :=
  match s.currentPatient with
  | none => (Resp.json 401 (errorBody "Not logged in"), s)
  | some p =>
    match findDoctor rt s.doctors did with
    | none => (Resp.json 404 (errorBody "Doctor not found"), s)
    | some doc =>
      let base : Obj :=
        [ ("id", Val.num (s.consultations.length + 1)),
          ("patientId", getKey p "id"),
          ("doctorId", getKey doc "id"),
          ("patientName", getKey p "name"),
          ("patientEmail", getKey p "email"),
          ("patientAge", getKey p "age"),
          ("patientPhone", getKey p "phone"),
          ("doctorName", getKey doc "name"),
          ("doctorSpecialty", getKey doc "specialty") ]
      let consultation := setKey (spread base body) "submittedAt" (Val.date now [])
      (Resp.json 200 [("success", Val.bool true)],
        { s with consultations := s.consultations ++ [consultation] })

/-- The file name of a generated prescription,
`prescription_<consultation.id>_<Date.now()>.pdf`. -/
def prescriptionFileName (rt : Runtime) (now : Int) (c : Obj) : Option String :=
  (toStr rt (getKey c "id")).map
    (fun idText => "prescription_" ++ idText ++ "_" ++ toString now ++ ".pdf")

/-- The prescription object literal built by submitPrescription. -/
def newPrescription (now : Int) (d body : Obj) (pdfFileName : String) : Val :=
  Val.obj
    [ ("careToBeTaken", getKey body "careToBeTaken"),
      ("medicines", orElse (getKey body "medicines") (Val.str "")),
      ("prescribedAt", Val.date now []),
      ("prescribedBy", getKey d "name"),
      ("pdfFile", Val.str pdfFileName) ]

/-- Handler `POST /submitPrescription/:consultationId`. -/
def submitPrescription (rt : Runtime) (now : Int) (cid : String) (body : Obj) (s : State) :
    Resp × State :=
  match s.currentDoctor with
  | none => (Resp.json 401 (errorBody "Not logged in"), s)
  | some d =>
    match findConsultation rt s.consultations cid with
    | none => (Resp.json 404 (errorBody "Consultation not found"), s)
    | some c =>
      if !strictEq (getKey c "doctorId") (getKey d "id") then
        (Resp.json 403 (errorBody "Not authorized"), s)
      else
        match careBlank (getKey body "careToBeTaken") with
        | none => (Resp.serverError, s)
        | some true => (Resp.json 400 (errorBody "Care to be taken is required"), s)
        | some false =>
          match prescriptionFileName rt now c with
          | none => (Resp.serverError, s)
          | some pdfFileName =>
            (Resp.json 200 [("success", Val.bool true), ("pdfFile", Val.str pdfFileName)],
              storeConsultation rt cid
                (setKey c "prescription" (newPrescription now d body pdfFileName)) s)

/-- The two assignments of sendPrescriptionToPatient on the prescription. -/
def markSent (now : Int) (p : Val) : Option Val :=
  (p.setProp "sentToPatient" (Val.bool true)).bind
    (fun p1 => p1.setProp "sentAt" (Val.date now []))

/-- The text `Prescription sent to <patientName> at <patientEmail>`; `none`
when a conversion raises. -/
def sentMessage (rt : Runtime) (c : Obj) : Option String :=
  (toStr rt (getKey c "patientName")).bind (fun name =>
    (toStr rt (getKey c "patientEmail")).map (fun email =>
      "Prescription sent to " ++ name ++ " at " ++ email))

/-- Handler `POST /sendPrescriptionToPatient/:consultationId`. The two
assignments come before the message is built, so an error raised by the
message leaves them in place. -/
def sendPrescriptionToPatient (rt : Runtime) (now : Int) (cid : String) (s : State) :
    Resp × State :=
  match s.currentDoctor with
  | none => (Resp.json 401 (errorBody "Not logged in"), s)
  | some d =>
    match findConsultation rt s.consultations cid with
    | none => (Resp.json 404 (errorBody "Prescription not found"), s)
    | some c =>
      if !truthy (getKey c "prescription") then
        (Resp.json 404 (errorBody "Prescription not found"), s)
      else if !strictEq (getKey c "doctorId") (getKey d "id") then
        (Resp.json 403 (errorBody "Not authorized"), s)
      else
        match markSent now (getKey c "prescription") with
        | none => (Resp.serverError, s)
        | some p2 =>
          match sentMessage rt c with
          | none => (Resp.serverError, storeConsultation rt cid (setKey c "prescription" p2) s)
          | some message =>
            (Resp.json 200 [("success", Val.bool true), ("message", Val.str message)],
              storeConsultation rt cid (setKey c "prescription" p2) s)

/-- The fixed text used when an upload creates the prescription and carries no notes. -/
def fallbackCare : String := "Please refer to the attached prescription."

/-- The placeholder prescription uploadPrescriptionPDF creates when the
consultation has none. -/
def placeholderPrescription (now : Int) (d body : Obj) : Val :=
  Val.obj
    [ ("careToBeTaken", orElse (getKey body "notes") (Val.str fallbackCare)),
      ("medicines", Val.str ""),
      ("prescribedAt", Val.date now []),
      ("prescribedBy", getKey d "name") ]

/-- The entry pushed on `customPDFs` for an uploaded file. -/
def pdfEntry (now : Int) (file body : Obj) : Val :=
  Val.obj
    [ ("filename", getKey file "filename"),
      ("originalName", getKey file "originalname"),
      ("uploadedAt", Val.date now []),
      ("notes", orElse (getKey body "notes") (Val.str "")) ]

/-- The prescription after the three mutating statements of
uploadPrescriptionPDF, starting from the value `p0` of
`consultation.prescription`; `none` is a `TypeError`. -/
def attachPdf (now : Int) (d file body : Obj) (p0 : Val) : Option Val :=
  let p1 := if truthy p0 then p0 else placeholderPrescription now d body
  let p2 := if truthy (p1.get "customPDFs") then some p1 else p1.setProp "customPDFs" (Val.arr [] [])
  p2.bind (fun p =>
    ((p.get "customPDFs").push (pdfEntry now file body)).bind
      (fun list => p.setProp "customPDFs" list))

/-- The file part of a multipart request as the upload middleware meets it,
with `draw`, the value of `Math.round(Math.random() * 1E9)` when the file is
named. A request carries at most one file part. -/
structure Upload where
  fieldname : String
  originalname : String
  mimetype : String
  size : Nat
  draw : Nat

/-- The option `limits.fileSize` of the upload middleware: 10 MiB. -/
def maxFileSize : Nat := 10 * 1024 * 1024

/-- The callback `fileFilter`: only the mimetype `application/pdf` passes. -/
def fileFilter (u : Upload) : Bool := u.mimetype == "application/pdf"

/-- Whether `upload.single("pdfFile")` forwards an error for the file part:
it is not in the field `pdfFile`, the file filter refuses it, or it is larger
than the size limit. -/
def uploadRefused (u : Upload) : Bool :=
  u.fieldname != "pdfFile" || !fileFilter u || decide (u.size > maxFileSize)

/-- The callback `filename` of the disk storage:
`custom_<Date.now()>-<draw><path.extname(originalname)>`. -/
def storageFilename (rt : Runtime) (now : Int) (u : Upload) : String :=
  "custom_" ++ toString now ++ "-" ++ toString u.draw ++ rt.extname u.originalname

/-- The object `req.file` for a stored file, with the properties that do not
depend on the install directory; the handler reads `filename` and
`originalname`. -/
def storedFile (rt : Runtime) (now : Int) (u : Upload) : Obj :=
  [ ("fieldname", Val.str u.fieldname),
    ("originalname", Val.str u.originalname),
    ("mimetype", Val.str u.mimetype),
    ("filename", Val.str (storageFilename rt now u)),
    ("size", Val.num u.size) ]

/-- The middleware `upload.single("pdfFile")`: `none` when it forwards an
error; otherwise `req.file` and the state, in which an accepted file has been
stored under its generated name. -/
def uploadSingle (rt : Runtime) (now : Int) (upload : Option Upload) (s : State) :
    Option (Option Obj × State) :=
  match upload with
  | none => some (none, s)
  | some u =>
    if uploadRefused u then none
    else some (some (storedFile rt now u),
      { s with uploads := s.uploads ++ [storageFilename rt now u] })

/-- The handler of `POST /uploadPrescriptionPDF/:consultationId`; `file` is
`req.file` as the upload middleware left it. -/
def uploadHandler (rt : Runtime) (now : Int) (cid : String) (file : Option Obj)
    (body : Obj) (s : State) : Resp × State :=
  match s.currentDoctor with
  | none => (Resp.json 401 (errorBody "Not logged in"), s)
  | some d =>
    match findConsultation rt s.consultations cid with
    | none => (Resp.json 404 (errorBody "Consultation not found"), s)
    | some c =>
      if !strictEq (getKey c "doctorId") (getKey d "id") then
        (Resp.json 403 (errorBody "Not authorized"), s)
      else
        match file with
        | none => (Resp.json 400 (errorBody "No file uploaded"), s)
        | some f =>
          match attachPdf now d f body (getKey c "prescription") with
          | none => (Resp.serverError, s)
          | some p =>
            (Resp.json 200
                [ ("success", Val.bool true),
                  ("message", Val.str "PDF uploaded successfully"),
                  ("filename", getKey f "filename") ],
              storeConsultation rt cid (setKey c "prescription" p) s)

/-- Route `POST /uploadPrescriptionPDF/:consultationId`: the upload
middleware, then the handler. An error of the middleware is answered 500 and
the handler does not run. -/
def uploadPrescriptionPDF (rt : Runtime) (now : Int) (cid : String) (upload : Option Upload)
    (body : Obj) (s : State) : Resp × State :=
  match uploadSingle rt now upload s with
  | none => (Resp.serverError, s)
  | some (file, s1) => uploadHandler rt now cid file body s1

/-! ## The prescription renderer -/

/-- A text call whose argument is the template literal
`<label>${v}<suffix>`; `none` when the conversion of `v` raises. -/
def line (rt : Runtime) (label : String) (v : Val) (suffix : String) : Option Val :=
  (toStr rt v).map (fun t => Val.str (label ++ t ++ suffix))

/-- The text call `Date: ${new Date(prescribedAt).toLocaleDateString(...)}`. -/
def dateLine (rt : Runtime) (v : Val) : Option Val :=
  (rt.formatDate v).map (fun t => Val.str ("Date: " ++ t))

/-- A text call handed the value `v` directly: the value is recorded as it
is passed; `none` when the library raises on a value that is not a string. -/
def passed (rt : Runtime) (v : Val) : Option Val :=
  match v with
  | Val.str t => some (Val.str t)
  | _ => if rt.textRaises v then none else some v

/-- The argument of every `doc.text(...)` call generatePrescriptionPDF
reaches for the consultation `c`, in call order; `none` marks a call that
raises a `TypeError`, while its argument is evaluated or inside the library.
The calls that only set a font size, a colour or move the cursor draw no text
and are left out. -/
def pdfSteps (rt : Runtime) (c : Obj) : List (Option Val) :=
  let p := getKey c "prescription"
  [ some (Val.str "MEDICAL PRESCRIPTION"),
    some (Val.str "This is an official medical prescription"),
    some (Val.str "Doctor Information"),
    line rt "Name: " (getKey c "doctorName") "",
    line rt "Specialty: " (getKey c "doctorSpecialty") "",
    dateLine rt (p.get "prescribedAt"),
    some (Val.str "Patient Information"),
    line rt "Name: " (getKey c "patientName") "",
    line rt "Age: " (getKey c "patientAge") " years",
    line rt "Phone: " (getKey c "patientPhone") "",
    line rt "Email: " (getKey c "patientEmail") "",
    some (Val.str "Medical History"),
    line rt "Current Illness: " (getKey c "currentIllness") "" ]
  ++ (if truthy (getKey c "recentSurgery")
        && !strictEq (getKey c "recentSurgery") (Val.str "None") then
      [line rt "Recent Surgery: " (getKey c "recentSurgery") ""]
      ++ (if truthy (getKey c "surgeryTimespan") then
          [line rt "Time Since Surgery: " (getKey c "surgeryTimespan") ""]
        else [])
    else [])
  ++ [line rt "Diabetes History: "
        (orElse (getKey c "diabetesHistory") (Val.str "Not specified")) ""]
  ++ (if truthy (getKey c "allergies") then
      [line rt "Allergies: " (getKey c "allergies") ""]
    else [])
  ++ [ some (Val.str "PRESCRIPTION"),
       some (Val.str "Care to be Taken:"),
       passed rt (p.get "careToBeTaken") ]
  ++ (if truthy (p.get "medicines") then
      [some (Val.str "Medicines:"), passed rt (p.get "medicines")]
    else [])
  ++ (if truthy (getKey c "transactionId") then
      [line rt "Transaction ID: " (getKey c "transactionId") ""]
    else [])
  ++ [ some (Val.str (String.mk (List.replicate 60 '_'))),
       line rt "Dr. " (getKey c "doctorName") "",
       some (Val.str "Digital Signature") ]

/-- Runs the text calls in order: the items drawn before the first call that
raises, and whether all calls went through. -/
def drawAll : List (Option Val) → List Val × Bool
  | [] => ([], true)
  | none :: _ => ([], false)
  | some v :: rest => (v :: (drawAll rest).1, (drawAll rest).2)

/-- The name `prescription.pdfFile || "prescription_<id>.pdf"` handed to
`path.join`; `none` is the `TypeError` of `path.join` for a truthy
non-string, or of the template literal. -/
def pdfTarget (rt : Runtime) (c : Obj) : Option String :=
  if truthy ((getKey c "prescription").get "pdfFile") then
    match (getKey c "prescription").get "pdfFile" with
    | Val.str name => some name
    | _ => none
  else (toStr rt (getKey c "id")).map (fun idText => "prescription_" ++ idText ++ ".pdf")

/-- Handler `GET /generatePrescriptionPDF/:consultationId`. The output file
is opened before the first text call; when a text call raises, the answer is
500 and the file holds what was drawn before. -/
def generatePrescriptionPDF (rt : Runtime) (cid : String) (s : State) : Resp × State :=
  match s.currentDoctor with
  | none => (Resp.send 401 "Not logged in", s)
  | some _ =>
    match findConsultation rt s.consultations cid with
    | none => (Resp.send 404 "Prescription not found", s)
    | some c =>
      if !truthy (getKey c "prescription") then
        (Resp.send 404 "Prescription not found", s)
      else
        match pdfTarget rt c with
        | none => (Resp.serverError, s)
        | some name =>
          (if (drawAll (pdfSteps rt c)).2 then Resp.pdf name (drawAll (pdfSteps rt c)).1
            else Resp.serverError,
            { s with written := s.written ++ [(name, (drawAll (pdfSteps rt c)).1)] })

/-! ## Views -/

/-- The array of consultation objects handed to a view. -/
def viewList (cs : List Obj) : Val := Val.arr (cs.map Val.obj) []

/-- The filter `consultations.filter(c => c.doctorId === currentDoctor.id)`. -/
def listByDoctor (cs : List Obj) (d : Obj) : List Obj :=
  cs.filter (fun c => strictEq (getKey c "doctorId") (getKey d "id"))

/-- The filter `consultations.filter(c => c.patientId === currentPatient.id)`. -/
def listByPatient (cs : List Obj) (p : Obj) : List Obj :=
  cs.filter (fun c => strictEq (getKey c "patientId") (getKey p "id"))

/-- Handlers `GET /prescriptionPage` and `GET /doctorAppointments`, which
differ in the view only. -/
def doctorListing (view : String) (s : State) : Resp × State :=
  match s.currentDoctor with
  | none => (Resp.redirect "/doctorSignCheck", s)
  | some d =>
    (Resp.render view
        [("doctor", Val.obj d), ("consultations", viewList (listByDoctor s.consultations d))], s)

/-- Handler `GET /prescriptionPage`. -/
def prescriptionPage (s : State) : Resp × State := doctorListing "prescriptionPage.ejs" s

/-- Handler `GET /doctorAppointments`. -/
def doctorAppointments (s : State) : Resp × State := doctorListing "doctorAppointments.ejs" s

/-- Handler `GET /patientAppointments`. -/
def patientAppointments (s : State) : Resp × State :=
  match s.currentPatient with
  | none => (Resp.redirect "/patientSignCheck", s)
  | some p =>
    (Resp.render "patientAppointments.ejs"
        [("patient", Val.obj p), ("consultations", viewList (listByPatient s.consultations p))], s)

/-- Handlers `GET /doctorSignCheck` and `GET /patientSignCheck`. -/
def signCheck (slot : Option Obj) (view dashboard : String) : Resp :=
  match slot with
  | none => Resp.render view []
  | some _ => Resp.redirect dashboard

/-- Handlers `GET /doctorDashboard`, `/doctorProfile`, `/patientDashboard`:
a page for the logged-in user, a redirect otherwise. -/
def sessionPage (slot : Option Obj) (key view signCheckPath : String) : Resp :=
  match slot with
  | none => Resp.redirect signCheckPath
  | some u => Resp.render view [(key, Val.obj u)]

/-- Handler `GET /findDoctors`. -/
def findDoctors (s : State) : Resp :=
  match s.currentPatient with
  | none => Resp.redirect "/patientSignCheck"
  | some _ => Resp.render "doctorsList.ejs" [("doctors", viewList s.doctors)]

/-- Handler `GET /consultation/:doctorId`. -/
def consultationForm (rt : Runtime) (did : String) (s : State) : Resp :=
  match s.currentPatient with
  | none => Resp.redirect "/patientSignCheck"
  | some _ =>
    match findDoctor rt s.doctors did with
    | none => Resp.send 404 "Doctor not found"
    | some doctor => Resp.render "consultationForm.ejs" [("doctor", Val.obj doctor)]

/-- Handler `GET /downloadPDF/:filename`; `present` is the answer of
`fs.existsSync` for the file. -/
def downloadPDF (filename : String) (present : Bool) : Resp :=
  if present then Resp.send 200 filename else Resp.send 404 "File not found"

/-! ## The step function of the server -/

/-- The requests the server routes. -/
inductive Request where
  | root
  | doctorSignCheck
  | doctorSignInPage
  | doctorSignUp (body : Obj)
  | doctorSignIn (body : Obj)
  | patientSignCheck
  | patientSignInPage
  | patientSignUp (body : Obj)
  | patientSignIn (body : Obj)
  | doctorPage
  | patientPage
  | doctorDashboard
  | doctorProfile
  | patientDashboard
  | findDoctors
  | consultationForm (doctorId : String)
  | submitConsultation (doctorId : String) (body : Obj)
  | prescriptionPage
  | submitPrescription (consultationId : String) (body : Obj)
  | generatePrescriptionPDF (consultationId : String)
  | sendPrescriptionToPatient (consultationId : String)
  | uploadPrescriptionPDF (consultationId : String) (upload : Option Upload) (body : Obj)
  | downloadPDF (filename : String) (present : Bool)
  | doctorAppointments
  | patientAppointments
  | doctorLogout
  | patientLogout

/-- One request handled to completion at clock instant `now`. -/
def step (rt : Runtime) (now : Int) (req : Request) (s : State) : Resp × State :=
  match req with
  | Request.root => (Resp.redirect "/patientSignCheck", s)
  | Request.doctorSignCheck =>
    (signCheck s.currentDoctor "doctorSignup.ejs" "/doctorDashboard", s)
  | Request.doctorSignInPage => (Resp.render "doctorSignin.ejs" [], s)
  | Request.doctorSignUp body => doctorSignUp rt now body s
  | Request.doctorSignIn body => doctorSignIn body s
  | Request.patientSignCheck =>
    (signCheck s.currentPatient "patientSignup.ejs" "/patientDashboard", s)
  | Request.patientSignInPage => (Resp.render "patientSignin.ejs" [], s)
  | Request.patientSignUp body => patientSignUp rt now body s
  | Request.patientSignIn body => patientSignIn body s
  | Request.doctorPage => (Resp.render "doctor.ejs" [("doctor", optVal s.currentDoctor)], s)
  | Request.patientPage => (Resp.render "patient.ejs" [("patient", optVal s.currentPatient)], s)
  | Request.doctorDashboard =>
    (sessionPage s.currentDoctor "doctor" "doctorDashboard.ejs" "/doctorSignCheck", s)
  | Request.doctorProfile =>
    (sessionPage s.currentDoctor "doctor" "doctorProfile.ejs" "/doctorSignCheck", s)
  | Request.patientDashboard =>
    (sessionPage s.currentPatient "patient" "patientDashboard.ejs" "/patientSignCheck", s)
  | Request.findDoctors => (findDoctors s, s)
  | Request.consultationForm did => (consultationForm rt did s, s)
  | Request.submitConsultation did body => submitConsultation rt now did body s
  | Request.prescriptionPage => prescriptionPage s
  | Request.submitPrescription cid body => submitPrescription rt now cid body s
  | Request.generatePrescriptionPDF cid => generatePrescriptionPDF rt cid s
  | Request.sendPrescriptionToPatient cid => sendPrescriptionToPatient rt now cid s
  | Request.uploadPrescriptionPDF cid upload body =>
    uploadPrescriptionPDF rt now cid upload body s
  | Request.downloadPDF filename present => (downloadPDF filename present, s)
  | Request.doctorAppointments => doctorAppointments s
  | Request.patientAppointments => patientAppointments s
  | Request.doctorLogout => doctorLogout s
  | Request.patientLogout => patientLogout s

/-- A finite sequence of requests, each with its clock instant, handled in order. -/
def run (rt : Runtime) : List (Int × Request) → State → State
  | [], s => s
  | (now, req) :: rest, s => run rt rest (step rt now req s).2

/-! ## Concrete data used to evaluate the handlers -/

/-- The extension of a file name of the form `stem.ext`. -/
def sampleExtname (name : String) : String :=
  if name.data.contains '.' then
    String.mk ('.' :: (name.data.reverse.takeWhile (fun ch => ch != '.')).reverse)
  else ""

/-- A runtime for evaluation, exact on what the examples below pass to it:
a stored integer equals a path parameter that is a canonical decimal numeral
when the numeral denotes it; `parseFloat`/`parseInt` return an integer as it
is and give `NaN` for `undefined`; a plain object converts to
`[object Object]` unless it has an own `toString` property, which JSON can
only make non-callable, and then the conversion raises; the instant
1705800000000 (21 January 2024, 01:20 UTC) is formatted for a server clock in
UTC or Indian time, and `undefined` gives `Invalid Date`; file names have the
form `stem.ext`; the PDF library is only handed strings. -/
def sampleRuntime : Runtime where
  looseEq := fun v param =>
    match v with
    | Val.num n => toString n == param
    | Val.str t => t == param
    | _ => false
  parseFloat := fun v =>
    match v with
    | Val.num n => some (Val.num n)
    | _ => some Val.nan
  parseInt := fun v =>
    match v with
    | Val.num n => some (Val.num n)
    | _ => some Val.nan
  objToString := fun v =>
    match v with
    | Val.obj p => if hasKey p "toString" then none else some "[object Object]"
    | _ => some ""
  formatDate := fun v =>
    match v with
    | Val.date 1705800000000 _ => some "21 January 2024"
    | _ => some "Invalid Date"
  extname := sampleExtname
  textRaises := fun v =>
    match v with
    | Val.obj p => hasKey p "toString"
    | _ => false

/-- The consultation the server starts with (the literal of `consultations`). -/
def seedConsultation : Obj :=
  [ ("id", Val.num 1),
    ("patientId", Val.num 1),
    ("doctorId", Val.num 1),
    ("patientName", Val.str "Shreya Jain"),
    ("patientEmail", Val.str "shreya@demo.com"),
    ("patientAge", Val.num 28),
    ("patientPhone", Val.str "+919988776655"),
    ("doctorName", Val.str "Dr. Aayush Mali"),
    ("doctorSpecialty", Val.str "Cardiologist"),
    ("currentIllness",
      Val.str "I have chest pain and difficulty breathing for the past 2 days"),
    ("recentSurgery", Val.str "None"),
    ("surgeryTimespan", Val.str ""),
    ("diabetesHistory", Val.str "non-diabetic"),
    ("allergies", Val.str "Penicillin allergy"),
    ("others", Val.str "Family history of high blood pressure"),
    ("transactionId", Val.str "TXN1234567890"),
    ("submittedAt", Val.date 1705708800000 []) ]

/-- A doctor record with id 1, the doctor of the seed consultation. -/
def doctorA : Obj :=
  [ ("id", Val.num 1), ("name", Val.str "Dr. Aayush Mali"),
    ("email", Val.str "aayush@demo.com"), ("password", Val.str "pw1"),
    ("phone", Val.str "+911111111111"), ("specialty", Val.str "Cardiologist") ]

/-- A second doctor record, with id 2. -/
def doctorB : Obj :=
  [ ("id", Val.num 2), ("name", Val.str "Dr. B"),
    ("email", Val.str "b@demo.com"), ("password", Val.str "pw2"),
    ("phone", Val.str "+912222222222"), ("specialty", Val.str "Dermatologist") ]

/-- The patient of the seed consultation. -/
def patientS : Obj :=
  [ ("id", Val.num 1), ("name", Val.str "Shreya Jain"),
    ("email", Val.str "shreya@demo.com"), ("password", Val.str "pw"),
    ("age", Val.num 28), ("phone", Val.str "+919988776655") ]

/-- The server with both doctors, the patient and the seed consultation, and
the given sessions. -/
def sampleState (doctor patient : Option Obj) : State where
  doctors := [doctorA, doctorB]
  patients := [patientS]
  consultations := [seedConsultation]
  currentDoctor := doctor
  currentPatient := patient
  written := []
  uploads := []

/-- The seed consultation after doctor A has prescribed, uploaded one PDF
and sent the prescription. -/
def treatedConsultation : Obj :=
  setKey seedConsultation "prescription"
    (Val.obj
      [ ("careToBeTaken", Val.str "Rest"),
        ("medicines", Val.str "Aspirin"),
        ("prescribedAt", Val.date 1705800000000 []),
        ("prescribedBy", Val.str "Dr. Aayush Mali"),
        ("pdfFile", Val.str "prescription_1_1705800000000.pdf"),
        ("customPDFs",
          Val.arr
            [ Val.obj
                [ ("filename", Val.str "custom_1705800001000-5.pdf"),
                  ("originalName", Val.str "scan.pdf"),
                  ("uploadedAt", Val.date 1705800001000 []),
                  ("notes", Val.str "") ] ] []),
        ("sentToPatient", Val.bool true),
        ("sentAt", Val.date 1705800002000 []) ])

/-- The server holding the treated consultation, with the given sessions. -/
def treatedState (doctor patient : Option Obj) : State :=
  { sampleState doctor patient with consultations := [treatedConsultation] }

/-- A PDF of 52 000 bytes uploaded in the field `pdfFile`. -/
def sampleUpload : Upload where
  fieldname := "pdfFile"
  originalname := "report.pdf"
  mimetype := "application/pdf"
  size := 52000
  draw := 42

/-- A PNG image uploaded in the field `pdfFile`. -/
def pngUpload : Upload where
  fieldname := "pdfFile"
  originalname := "photo.png"
  mimetype := "image/png"
  size := 52000
  draw := 42

/-- Whether some drawn item is a string starting with `label`. -/
def drawsLine (label : String) (items : List Val) : Bool :=
  items.any (fun v =>
    match v with
    | Val.str t => t.data.take label.length == label.data
    | _ => false)

/-- The seed consultation as an intake form with blank allergies and blank
transaction id submits it (blank fields arrive as empty strings), with a
prescription by doctor A. -/
def blankFieldsConsultation : Obj :=
  setKey (setKey (setKey seedConsultation "allergies" (Val.str ""))
      "transactionId" (Val.str ""))
    "prescription"
    (Val.obj
      [ ("careToBeTaken", Val.str "Rest"),
        ("medicines", Val.str ""),
        ("prescribedAt", Val.date 1705800000000 []),
        ("prescribedBy", Val.str "Dr. Aayush Mali"),
        ("pdfFile", Val.str "prescription_1_1705800000000.pdf") ])

/-- The seed consultation as a JSON intake with an object for
`currentIllness` submits it, with a prescription by doctor A. -/
def objectIllnessConsultation : Obj :=
  setKey (setKey seedConsultation "currentIllness" (Val.obj [("toString", Val.num 1)]))
    "prescription"
    (Val.obj
      [ ("careToBeTaken", Val.str "Rest"),
        ("medicines", Val.str ""),
        ("prescribedAt", Val.date 1705800000000 []),
        ("prescribedBy", Val.str "Dr. Aayush Mali"),
        ("pdfFile", Val.str "prescription_1_1705800000000.pdf") ])

/-- Two records share a contact: they have the same email value or the same
phone value. A missing field is the value `undefined`. -/
def sharesContact (a b : Obj) : Prop :=
  getKey a "email" = getKey b "email" ∨ getKey a "phone" = getKey b "phone"

/-- No two records of the list share an email or a phone. -/
def distinctContacts (l : List Obj) : Prop :=
  l.Pairwise (fun a b => ¬ sharesContact a b)

/-- The email and the phone of a signup body are primitives that `===`
compares by value (a missing one is `undefined`). -/
def scalarContacts (body : Obj) : Bool :=
  isScalar (getKey body "email") && isScalar (getKey body "phone")

/-- Every signup among the requests has a primitive email and phone. -/
def signupsScalar (reqs : List (Int × Request)) : Prop :=
  ∀ r ∈ reqs,
    (∀ body, r.2 = Request.doctorSignUp body → scalarContacts body = true)
    ∧ (∀ body, r.2 = Request.patientSignUp body → scalarContacts body = true)

/-- A signup body whose email is an array, as `email[]=dup@demo.com` parses. -/
def arrayEmailBody (phone : String) : Obj :=
  [ ("name", Val.str "Dr. Dup"),
    ("email", Val.arr [Val.str "dup@demo.com"] []),
    ("password", Val.str "pw"),
    ("phone", Val.str phone),
    ("specialty", Val.str "Surgeon"),
    ("yearsOfExperience", Val.num 3) ]

/-- A signup body for a third doctor. -/
def doctorCBody : Obj :=
  [ ("name", Val.str "Dr. C"), ("email", Val.str "c@demo.com"), ("password", Val.str "pw3"),
    ("phone", Val.str "+913333333333"), ("specialty", Val.str "Neurologist"),
    ("yearsOfExperience", Val.num 4) ]

/-- A signup body with neither email nor phone. -/
def anonymousBody : Obj := [("name", Val.str "Nobody")]

/-- Four signups: a third doctor, then two doctors and one patient that
give neither email nor phone. -/
def sampleSignups : List (Int × Request) :=
  [ (1706000000000, Request.doctorSignUp doctorCBody),
    (1706000001000, Request.doctorSignUp anonymousBody),
    (1706000002000, Request.doctorSignUp anonymousBody),
    (1706000003000, Request.patientSignUp anonymousBody) ]

/-- The prescription of the consultation at position `i` of the ledger;
`undefined` when there is no such consultation. -/
def prescriptionAt (cs : List Obj) (i : Nat) : Val :=
  match cs[i]? with
  | some c => getKey c "prescription"
  | none => Val.undef

/-- The keys submitConsultation computes on the server before it spreads the body. -/
def serverKeys : List String :=
  [ "id", "patientId", "doctorId", "patientName", "patientEmail", "patientAge",
    "patientPhone", "doctorName", "doctorSpecialty" ]

/-- A JSON body for submitConsultation that names server-computed keys. -/
def forgedBody : Obj :=
  [ ("currentIllness", Val.str "Cough"),
    ("id", Val.num 99),
    ("patientId", Val.num 7),
    ("doctorId", Val.num 2),
    ("doctorName", Val.str "Dr. B") ]

/-- A JSON body for submitConsultation that carries a prescription. -/
def injectedBody : Obj :=
  [ ("currentIllness", Val.str "Cough"),
    ("prescription",
      Val.obj
        [ ("careToBeTaken", Val.str "Unlimited refills"),
          ("medicines", Val.str "Morphine"),
          ("prescribedBy", Val.str "Dr. Aayush Mali") ]) ]

/-- The ledger holding the consultation whose `currentIllness` is an object,
with doctor A logged in. -/
def objectIllnessState : State :=
  { sampleState (some doctorA) none with consultations := [objectIllnessConsultation] }

/-- The fields every rendered prescription prints. -/
def printedKeys : List String :=
  [ "doctorName", "doctorSpecialty", "patientName", "patientAge", "patientPhone",
    "patientEmail", "currentIllness" ]

/-- Two doctor signups with the same array-valued email and different phones. -/
def arrayEmailSignups : List (Int × Request) :=
  [ (1706000000000, Request.doctorSignUp (arrayEmailBody "+914444444444")),
    (1706000001000, Request.doctorSignUp (arrayEmailBody "+915555555555")) ]

/-! ## Properties of the value model -/

theorem getKey_setKey_same (o : Obj) (k : String) (v : Val) : getKey (setKey o k v) k = v := by
  induction o with
  | nil => simp [setKey, getKey]
  | cons kv rest ih =>
    obtain ⟨k1, w⟩ := kv
    by_cases h : k1 = k
    · simp [setKey, getKey, h]
    · simp [setKey, getKey, h, ih]

theorem getKey_setKey_other (o : Obj) (k k2 : String) (v : Val) (h : k2 ≠ k) :
    getKey (setKey o k v) k2 = getKey o k2 := by
  induction o with
  | nil => simp [setKey, getKey, Ne.symm h]
  | cons kv rest ih =>
    obtain ⟨k1, w⟩ := kv
    by_cases h1 : k1 = k
    · subst h1
      simp [setKey, getKey, Ne.symm h]
    · by_cases h2 : k1 = k2
      · subst h2
        simp [setKey, getKey, h1]
      · simp [setKey, getKey, h1, h2, ih]

/-- The operator `===` only relates equal values. -/
theorem strictEq_eq (a b : Val) (h : strictEq a b = true) : a = b := by
  cases a <;> cases b <;> simp_all [strictEq]

theorem setKey_setKey_same (o : Obj) (k : String) (v w : Val) :
    setKey (setKey o k v) k w = setKey o k w := by
  induction o with
  | nil => simp [setKey]
  | cons kv rest ih =>
    obtain ⟨k1, u⟩ := kv
    by_cases h : k1 = k
    · simp [setKey, h]
    · simp [setKey, h, ih]

theorem trimChars_of_blank (cs : List Char) (h : ∀ ch ∈ cs, isJsSpace ch = true) :
    trimChars cs = [] := by
  have h1 : cs.dropWhile isJsSpace = [] := by
    rw [List.dropWhile_eq_nil_iff]
    exact h
  simp [trimChars, h1]

theorem careBlank_undef : careBlank Val.undef = some true := rfl

theorem careBlank_of_blank (t : String) (h : ∀ ch ∈ t.data, isJsSpace ch = true) :
    careBlank (Val.str t) = some true := by
  by_cases ht : truthy (Val.str t) = true
  · simp [careBlank, ht, jsTrim, trimChars_of_blank t.data h]
  · simp [careBlank, ht]

/-- The element `find` returns splits the list, and the in-place update
touches that element only. -/
theorem find_split {α : Type} (p : α → Bool) (l : List α) (c : α)
    (h : l.find? p = some c) :
    ∃ pre post, l = pre ++ c :: post ∧ (∀ x ∈ pre, p x = false) ∧ p c = true
      ∧ ∀ f : α → α, modifyFirst p f l = pre ++ f c :: post := by
  induction l with
  | nil => simp at h
  | cons x xs ih =>
    by_cases hx : p x = true
    · have hxc : x = c := by simpa [List.find?, hx] using h
      subst hxc
      exact ⟨[], xs, by simp, by simp, hx, fun f => by simp [modifyFirst, hx]⟩
    · have h2 : xs.find? p = some c := by simpa [List.find?, hx] using h
      obtain ⟨pre, post, hl, hpre, hc, hm⟩ := ih h2
      refine ⟨x :: pre, post, by simp [hl], ?_, hc, fun f => by simp [modifyFirst, hx, hm f]⟩
      intro y hy
      rcases List.mem_cons.mp hy with rfl | hy2
      · simpa using hx
      · exact hpre y hy2

theorem truthy_undef : truthy Val.undef = false := rfl

theorem truthy_obj (p : Obj) : truthy (Val.obj p) = true := rfl

theorem truthy_arr (items : List Val) (p : Obj) : truthy (Val.arr items p) = true := rfl

/-- The upload on a consultation without prescription builds the placeholder
and puts the entry in a fresh list. -/
theorem attachPdf_placeholder (now : Int) (d f body : Obj) (p0 : Val)
    (hp : truthy p0 = false) :
    attachPdf now d f body p0
      = some (Val.obj
          [ ("careToBeTaken", orElse (getKey body "notes") (Val.str fallbackCare)),
            ("medicines", Val.str ""),
            ("prescribedAt", Val.date now []),
            ("prescribedBy", getKey d "name"),
            ("customPDFs", Val.arr [pdfEntry now f body] []) ]) := by
  simp [attachPdf, hp, placeholderPrescription, Val.get, Val.setProp, Val.push, getKey, setKey,
    truthy_undef]

/-- The upload on a prescription object with a list of PDFs appends the entry. -/
theorem attachPdf_list (now : Int) (d f body p : Obj) (old : List Val) (props : Obj)
    (hlist : getKey p "customPDFs" = Val.arr old props) :
    attachPdf now d f body (Val.obj p)
      = some (Val.obj (setKey p "customPDFs" (Val.arr (old ++ [pdfEntry now f body]) props))) := by
  simp [attachPdf, truthy_obj, Val.get, hlist, truthy_arr, Val.push, Val.setProp]

/-- The upload on a prescription object without PDFs starts the list. -/
theorem attachPdf_fresh (now : Int) (d f body p : Obj)
    (hnone : truthy (getKey p "customPDFs") = false) :
    attachPdf now d f body (Val.obj p)
      = some (Val.obj (setKey p "customPDFs" (Val.arr [pdfEntry now f body] []))) := by
  simp [attachPdf, truthy_obj, Val.get, hnone, Val.push, Val.setProp, getKey_setKey_same,
    setKey_setKey_same]

/-- The upload middleware accepts exactly the files in the field `pdfFile`
with mimetype `application/pdf` and at most 10 MiB. -/
theorem uploadRefused_false_iff (u : Upload) :
    uploadRefused u = false
      ↔ u.fieldname = "pdfFile" ∧ u.mimetype = "application/pdf" ∧ u.size ≤ 10485760 := by
  simp [uploadRefused, fileFilter, maxFileSize, and_assoc]

theorem uploadRefused_true_iff (u : Upload) :
    uploadRefused u = true
      ↔ u.fieldname ≠ "pdfFile" ∨ u.mimetype ≠ "application/pdf" ∨ 10485760 < u.size := by
  simp [uploadRefused, fileFilter, maxFileSize, or_assoc]

/-! ## Authorisation of the three prescription operations -/

/-- C1, as the code has it: when the lookup for the path parameter returns a
consultation `c` and the logged-in doctor `d` is not its doctor, then
submitPrescription answers 403 `Not authorized` whatever the body and the
prescription of `c` are; uploadPrescriptionPDF answers 403 when the request
carries no file or a file the upload middleware accepts (field `pdfFile`,
mimetype `application/pdf`, at most 10 MiB), and 500 when the middleware
refuses the file; sendPrescriptionToPatient answers 403 when `c` has a
prescription and 404 `Prescription not found` when it has none. In every case
the ledger is unchanged; the only change of state is the accepted file the
middleware stored. -/
theorem foreign_doctor_is_rejected (rt : Runtime) (now : Int) (cid : String) (body : Obj)
    (s : State) (d c : Obj)
    (hd : s.currentDoctor = some d)
    (hc : findConsultation rt s.consultations cid = some c)
    (hne : strictEq (getKey c "doctorId") (getKey d "id") = false) :
    submitPrescription rt now cid body s = (Resp.json 403 (errorBody "Not authorized"), s)
    ∧ uploadPrescriptionPDF rt now cid none body s
        = (Resp.json 403 (errorBody "Not authorized"), s)
    ∧ (∀ u : Upload, u.fieldname = "pdfFile" → u.mimetype = "application/pdf" →
        u.size ≤ 10485760 →
        uploadPrescriptionPDF rt now cid (some u) body s
          = (Resp.json 403 (errorBody "Not authorized"),
              { s with uploads := s.uploads
                  ++ ["custom_" ++ toString now ++ "-" ++ toString u.draw
                      ++ rt.extname u.originalname] }))
    ∧ (∀ u : Upload,
        (u.fieldname ≠ "pdfFile" ∨ u.mimetype ≠ "application/pdf" ∨ 10485760 < u.size) →
        uploadPrescriptionPDF rt now cid (some u) body s = (Resp.serverError, s))
    ∧ (∀ upload,
        (uploadPrescriptionPDF rt now cid upload body s).2.consultations = s.consultations)
    ∧ sendPrescriptionToPatient rt now cid s
        = (if truthy (getKey c "prescription") then Resp.json 403 (errorBody "Not authorized")
            else Resp.json 404 (errorBody "Prescription not found"), s) := by
  have hacc : ∀ u, uploadRefused u = false →
      uploadPrescriptionPDF rt now cid (some u) body s
        = (Resp.json 403 (errorBody "Not authorized"),
            { s with uploads := s.uploads ++ [storageFilename rt now u] }) := by
    intro u hu
    simp [uploadPrescriptionPDF, uploadSingle, hu, uploadHandler, hd, hc, hne]
  have hrej : ∀ u, uploadRefused u = true →
      uploadPrescriptionPDF rt now cid (some u) body s = (Resp.serverError, s) := by
    intro u hu
    simp [uploadPrescriptionPDF, uploadSingle, hu]
  have hnone : uploadPrescriptionPDF rt now cid none body s
      = (Resp.json 403 (errorBody "Not authorized"), s) := by
    simp [uploadPrescriptionPDF, uploadSingle, uploadHandler, hd, hc, hne]
  refine ⟨?_, hnone, ?_, ?_, ?_, ?_⟩
  · simp [submitPrescription, hd, hc, hne]
  · intro u h1 h2 h3
    exact hacc u ((uploadRefused_false_iff u).mpr ⟨h1, h2, h3⟩)
  · intro u h
    exact hrej u ((uploadRefused_true_iff u).mpr h)
  · intro upload
    cases upload with
    | none => rw [hnone]
    | some u =>
      by_cases hu : uploadRefused u = true
      · rw [hrej u hu]
      · rw [hacc u (by simpa using hu)]
  · by_cases hp : truthy (getKey c "prescription") = true
    · simp [sendPrescriptionToPatient, hd, hc, hne, hp]
    · simp [sendPrescriptionToPatient, hd, hc, hp]

/-- Witness for C1: doctor B (id 2) against the seed consultation of doctor A. -/
theorem foreign_doctor_is_rejected_witness :
    submitPrescription sampleRuntime 0 "1" [("careToBeTaken", Val.str "Rest")]
        (sampleState (some doctorB) none)
      = (Resp.json 403 (errorBody "Not authorized"), sampleState (some doctorB) none)
    ∧ (uploadPrescriptionPDF sampleRuntime 1705900000000 "1" (some sampleUpload) []
        (sampleState (some doctorB) none)).1 = Resp.json 403 (errorBody "Not authorized")
    ∧ (uploadPrescriptionPDF sampleRuntime 1705900000000 "1" (some sampleUpload) []
        (sampleState (some doctorB) none)).2.consultations = [seedConsultation] :=
  have h := foreign_doctor_is_rejected sampleRuntime 1705900000000 "1" []
    (sampleState (some doctorB) none) doctorB seedConsultation rfl rfl rfl
  ⟨(foreign_doctor_is_rejected sampleRuntime 0 "1" [("careToBeTaken", Val.str "Rest")]
      (sampleState (some doctorB) none) doctorB seedConsultation rfl rfl rfl).1,
    by rw [h.2.2.1 sampleUpload rfl rfl (by decide)], h.2.2.2.2.1 (some sampleUpload)⟩

/-- C1 as stated fails twice: doctor B (id 2) is logged in and the seed
consultation belongs to doctor 1 and has no prescription;
sendPrescriptionToPatient answers 404, not 403, and uploadPrescriptionPDF
with a PNG file answers 500, not 403. -/
theorem send_by_foreign_doctor_without_prescription_is_404 :
    (sampleState (some doctorB) none).currentDoctor = some doctorB
    ∧ findConsultation sampleRuntime (sampleState (some doctorB) none).consultations "1"
        = some seedConsultation
    ∧ strictEq (getKey seedConsultation "doctorId") (getKey doctorB "id") = false
    ∧ (sendPrescriptionToPatient sampleRuntime 0 "1" (sampleState (some doctorB) none)).1
        = Resp.json 404 (errorBody "Prescription not found")
    ∧ (sendPrescriptionToPatient sampleRuntime 0 "1" (sampleState (some doctorB) none)).1.status
        ≠ 403
    ∧ (uploadPrescriptionPDF sampleRuntime 0 "1" (some pngUpload) []
        (sampleState (some doctorB) none)).1 = Resp.serverError
    ∧ (uploadPrescriptionPDF sampleRuntime 0 "1" (some pngUpload) []
        (sampleState (some doctorB) none)).1.status ≠ 403 := by
  refine ⟨rfl, rfl, rfl, rfl, by decide, rfl, by decide⟩

/-! ## Rejections of submitPrescription -/

/-- C2: with a doctor logged in, a submitPrescription request whose
careToBeTaken is missing, empty or made of whitespace only is answered with
404, 403 or 400 and leaves the state unchanged, so no prescription is created;
and whenever submitPrescription answers anything but the 200 success, in
particular 401, 404, 403 or 400, the state after the call is the state before it. -/
theorem submitPrescription_rejections (rt : Runtime) (now : Int) (cid : String) (body : Obj)
    (s : State) :
    (s.currentDoctor.isSome = true →
      (getKey body "careToBeTaken" = Val.undef
        ∨ ∃ t, getKey body "careToBeTaken" = Val.str t ∧ ∀ ch ∈ t.data, isJsSpace ch = true) →
      ((submitPrescription rt now cid body s).1.status = 404
        ∨ (submitPrescription rt now cid body s).1.status = 403
        ∨ (submitPrescription rt now cid body s).1.status = 400)
      ∧ (submitPrescription rt now cid body s).2 = s)
    ∧ ((submitPrescription rt now cid body s).1.status ≠ 200 →
        (submitPrescription rt now cid body s).2 = s) := by
  constructor
  · intro hd hblank
    have hb : careBlank (getKey body "careToBeTaken") = some true := by
      rcases hblank with h | ⟨t, h, ht⟩
      · rw [h]; rfl
      · rw [h]; exact careBlank_of_blank t ht
    cases hcd : s.currentDoctor with
    | none => simp [hcd] at hd
    | some d =>
      cases hc : findConsultation rt s.consultations cid with
      | none => simp [submitPrescription, hcd, hc, Resp.status]
      | some c =>
        by_cases hown : strictEq (getKey c "doctorId") (getKey d "id") = true
        · simp [submitPrescription, hcd, hc, hown, hb, Resp.status]
        · simp [submitPrescription, hcd, hc, hown, Resp.status]
  · intro hst
    cases hcd : s.currentDoctor with
    | none => simp [submitPrescription, hcd]
    | some d =>
      cases hc : findConsultation rt s.consultations cid with
      | none => simp [submitPrescription, hcd, hc]
      | some c =>
        by_cases hown : strictEq (getKey c "doctorId") (getKey d "id") = true
        · cases hb : careBlank (getKey body "careToBeTaken") with
          | none => simp [submitPrescription, hcd, hc, hown, hb]
          | some b =>
            cases b with
            | true => simp [submitPrescription, hcd, hc, hown, hb]
            | false =>
              cases hn : prescriptionFileName rt now c with
              | none => simp [submitPrescription, hcd, hc, hown, hb, hn]
              | some name =>
                simp [submitPrescription, hcd, hc, hown, hb, hn, Resp.status] at hst
        · simp [submitPrescription, hcd, hc, hown]

/-- Witness for C2: doctor A submits three spaces as careToBeTaken for the
seed consultation and gets 400; the state is unchanged. -/
theorem submitPrescription_rejections_witness :
    (submitPrescription sampleRuntime 0 "1" [("careToBeTaken", Val.str "   ")]
        (sampleState (some doctorA) none)).1.status = 400
    ∧ (submitPrescription sampleRuntime 0 "1" [("careToBeTaken", Val.str "   ")]
        (sampleState (some doctorA) none)).2 = sampleState (some doctorA) none :=
  ⟨rfl,
    ((submitPrescription_rejections sampleRuntime 0 "1" [("careToBeTaken", Val.str "   ")]
        (sampleState (some doctorA) none)).1 rfl
      (Or.inr ⟨"   ", rfl, by decide⟩)).2⟩

/-! ## The renderer refuses without a session or without a prescription -/

/-- C9: generatePrescriptionPDF answers 401 when no doctor is logged in; with
a doctor logged in it answers 404 when the path parameter matches no
consultation or the consultation it matches has no prescription. In all these
cases the state is unchanged: the ledger is as before and no file is added to
the log of written files. -/
theorem generate_refusals (rt : Runtime) (cid : String) (s : State) :
    (s.currentDoctor = none →
      generatePrescriptionPDF rt cid s = (Resp.send 401 "Not logged in", s))
    ∧ (s.currentDoctor.isSome = true →
        (findConsultation rt s.consultations cid = none
          ∨ ∃ c, findConsultation rt s.consultations cid = some c
              ∧ truthy (getKey c "prescription") = false) →
        generatePrescriptionPDF rt cid s = (Resp.send 404 "Prescription not found", s)) := by
  constructor
  · intro h
    simp [generatePrescriptionPDF, h]
  · intro hd hc
    cases hcd : s.currentDoctor with
    | none => simp [hcd] at hd
    | some d =>
      rcases hc with h | ⟨c, h, hp⟩
      · simp [generatePrescriptionPDF, hcd, h]
      · simp [generatePrescriptionPDF, hcd, h, hp]

/-- Witness for C9: the seed consultation has no prescription, and "7"
matches no consultation. -/
theorem generate_refusals_witness :
    generatePrescriptionPDF sampleRuntime "1" (sampleState none none)
      = (Resp.send 401 "Not logged in", sampleState none none)
    ∧ generatePrescriptionPDF sampleRuntime "1" (sampleState (some doctorA) none)
      = (Resp.send 404 "Prescription not found", sampleState (some doctorA) none)
    ∧ generatePrescriptionPDF sampleRuntime "7" (sampleState (some doctorA) none)
      = (Resp.send 404 "Prescription not found", sampleState (some doctorA) none) :=
  ⟨(generate_refusals sampleRuntime "1" (sampleState none none)).1 rfl,
    (generate_refusals sampleRuntime "1" (sampleState (some doctorA) none)).2 rfl
      (Or.inr ⟨seedConsultation, rfl, rfl⟩),
    (generate_refusals sampleRuntime "7" (sampleState (some doctorA) none)).2 rfl
      (Or.inl rfl)⟩

/-! ## The filtered views -/

/-- C6: for a logged-in doctor `d`, prescriptionPage and doctorAppointments
hand their view, under the key `consultations`, the array of the ledger
records with `doctorId === d.id`, and for a logged-in patient `p`
patientAppointments hands its view the array of the ledger records with
`patientId === p.id`. The array handed over is the ledger filtered: a
subsequence of the ledger (so in ledger order) holding all and only the
matching records. The three handlers leave the state unchanged. -/
theorem views_show_own_consultations (s : State) :
    (∀ d, s.currentDoctor = some d →
      ∃ shown : List Obj,
        prescriptionPage s
          = (Resp.render "prescriptionPage.ejs"
              [("doctor", Val.obj d), ("consultations", Val.arr (shown.map Val.obj) [])], s)
        ∧ doctorAppointments s
          = (Resp.render "doctorAppointments.ejs"
              [("doctor", Val.obj d), ("consultations", Val.arr (shown.map Val.obj) [])], s)
        ∧ shown = s.consultations.filter
            (fun c => strictEq (getKey c "doctorId") (getKey d "id"))
        ∧ List.Sublist shown s.consultations
        ∧ ∀ c, c ∈ shown
            ↔ c ∈ s.consultations ∧ strictEq (getKey c "doctorId") (getKey d "id") = true)
    ∧ (∀ p, s.currentPatient = some p →
      ∃ shown : List Obj,
        patientAppointments s
          = (Resp.render "patientAppointments.ejs"
              [("patient", Val.obj p), ("consultations", Val.arr (shown.map Val.obj) [])], s)
        ∧ shown = s.consultations.filter
            (fun c => strictEq (getKey c "patientId") (getKey p "id"))
        ∧ List.Sublist shown s.consultations
        ∧ ∀ c, c ∈ shown
            ↔ c ∈ s.consultations ∧ strictEq (getKey c "patientId") (getKey p "id") = true)
    ∧ (prescriptionPage s).2 = s ∧ (doctorAppointments s).2 = s
    ∧ (patientAppointments s).2 = s := by
  refine ⟨?_, ?_, ?_, ?_, ?_⟩
  · intro d hd
    refine ⟨s.consultations.filter
      (fun c => strictEq (getKey c "doctorId") (getKey d "id")), ?_, ?_, rfl, ?_, ?_⟩
    · simp [prescriptionPage, doctorListing, hd, listByDoctor, viewList]
    · simp [doctorAppointments, doctorListing, hd, listByDoctor, viewList]
    · exact List.filter_sublist _
    · intro c
      simp [List.mem_filter]
  · intro p hp
    refine ⟨s.consultations.filter
      (fun c => strictEq (getKey c "patientId") (getKey p "id")), ?_, rfl, ?_, ?_⟩
    · simp [patientAppointments, hp, listByPatient, viewList]
    · exact List.filter_sublist _
    · intro c
      simp [List.mem_filter]
  · cases h : s.currentDoctor <;> simp [prescriptionPage, doctorListing, h]
  · cases h : s.currentDoctor <;> simp [doctorAppointments, doctorListing, h]
  · cases h : s.currentPatient <;> simp [patientAppointments, h]

/-- Witness for C6: doctor A and the patient of the seed consultation each
see it, doctor B sees nothing; the ledger is unchanged. -/
theorem views_show_own_consultations_witness :
    prescriptionPage (sampleState (some doctorA) (some patientS))
      = (Resp.render "prescriptionPage.ejs"
          [ ("doctor", Val.obj doctorA),
            ("consultations", Val.arr [Val.obj seedConsultation] []) ],
        sampleState (some doctorA) (some patientS))
    ∧ doctorAppointments (sampleState (some doctorB) (some patientS))
      = (Resp.render "doctorAppointments.ejs"
          [("doctor", Val.obj doctorB), ("consultations", Val.arr [] [])],
        sampleState (some doctorB) (some patientS))
    ∧ patientAppointments (sampleState (some doctorA) (some patientS))
      = (Resp.render "patientAppointments.ejs"
          [ ("patient", Val.obj patientS),
            ("consultations", Val.arr [Val.obj seedConsultation] []) ],
        sampleState (some doctorA) (some patientS)) := by
  obtain ⟨shownA, hA, _, hsA, _⟩ :=
    (views_show_own_consultations (sampleState (some doctorA) (some patientS))).1 doctorA rfl
  obtain ⟨shownB, _, hB, hsB, _⟩ :=
    (views_show_own_consultations (sampleState (some doctorB) (some patientS))).1 doctorB rfl
  obtain ⟨shownP, hP, hsP, _⟩ :=
    (views_show_own_consultations (sampleState (some doctorA) (some patientS))).2.1
      patientS rfl
  have eA : shownA = [seedConsultation] := by rw [hsA]; rfl
  have eB : shownB = [] := by rw [hsB]; rfl
  have eP : shownP = [seedConsultation] := by rw [hsP]; rfl
  rw [eA] at hA
  rw [eB] at hB
  rw [eP] at hP
  exact ⟨hA, hB, hP⟩

/-! ## submitPrescription replaces the prescription -/

/-- C10: when the lookup returns a consultation `c` of the logged-in doctor
`d` and submitPrescription succeeds (status 200), the ledger is the old one
with `c` alone changed, `c.prescription` being replaced by an object with
exactly the five properties careToBeTaken, medicines (the empty string when
the body gives none), prescribedAt, prescribedBy = `d.name` and
pdfFile = `prescription_<c.id>_<now>.pdf`, where `<c.id>` is the text of
`c.id`; whatever the old prescription held, the new one has no customPDFs,
sentToPatient or sentAt, and every other property of `c` is unchanged. -/
theorem submitPrescription_replaces_prescription (rt : Runtime) (now : Int) (cid : String)
    (body : Obj) (s : State) (d c : Obj)
    (hd : s.currentDoctor = some d)
    (hc : findConsultation rt s.consultations cid = some c)
    (hown : strictEq (getKey c "doctorId") (getKey d "id") = true)
    (hok : (submitPrescription rt now cid body s).1.status = 200) :
    ∃ pre post newP c2 idText,
      toStr rt (getKey c "id") = some idText
      ∧ newP = Val.obj
        [ ("careToBeTaken", getKey body "careToBeTaken"),
          ("medicines", if truthy (getKey body "medicines") then getKey body "medicines"
              else Val.str ""),
          ("prescribedAt", Val.date now []),
          ("prescribedBy", getKey d "name"),
          ("pdfFile", Val.str ("prescription_" ++ idText ++ "_" ++ toString now ++ ".pdf")) ]
      ∧ s.consultations = pre ++ c :: post
      ∧ (∀ x ∈ pre, rt.looseEq (getKey x "id") cid = false)
      ∧ (submitPrescription rt now cid body s).2
          = { s with consultations := pre ++ c2 :: post }
      ∧ getKey c2 "prescription" = newP
      ∧ (∀ k, k ≠ "prescription" → getKey c2 k = getKey c k)
      ∧ newP.get "customPDFs" = Val.undef
      ∧ newP.get "sentToPatient" = Val.undef
      ∧ newP.get "sentAt" = Val.undef := by
  have hb : careBlank (getKey body "careToBeTaken") = some false := by
    cases hb : careBlank (getKey body "careToBeTaken") with
    | none => simp [submitPrescription, hd, hc, hown, hb, Resp.status] at hok
    | some b =>
      cases b with
      | true => simp [submitPrescription, hd, hc, hown, hb, Resp.status] at hok
      | false => rfl
  cases hid : toStr rt (getKey c "id") with
  | none =>
    simp [submitPrescription, hd, hc, hown, hb, prescriptionFileName, hid, Resp.status] at hok
  | some idText =>
    have hn : prescriptionFileName rt now c
        = some ("prescription_" ++ idText ++ "_" ++ toString now ++ ".pdf") := by
      simp [prescriptionFileName, hid]
    obtain ⟨pre, post, hl, hpre, _, hm⟩ :=
      find_split (fun x => rt.looseEq (getKey x "id") cid) s.consultations c hc
    refine ⟨pre, post,
      newPrescription now d body ("prescription_" ++ idText ++ "_" ++ toString now ++ ".pdf"),
      setKey c "prescription" (newPrescription now d body
        ("prescription_" ++ idText ++ "_" ++ toString now ++ ".pdf")),
      idText, rfl, ?_, hl, hpre, ?_, ?_, ?_, ?_, ?_, ?_⟩
    · simp [newPrescription, orElse]
    · simp [submitPrescription, hd, hc, hown, hb, hn, storeConsultation, hm]
    · exact getKey_setKey_same _ _ _
    · intro k hk
      exact getKey_setKey_other _ _ _ _ hk
    · simp [newPrescription, Val.get, getKey]
    · simp [newPrescription, Val.get, getKey]
    · simp [newPrescription, Val.get, getKey]

/-- Witness for C10: doctor A prescribes again for the treated consultation,
whose prescription had an uploaded PDF and was marked sent. -/
theorem submitPrescription_replaces_prescription_witness :
    ∃ pre post newP c2 idText,
      toStr sampleRuntime (getKey treatedConsultation "id") = some idText
      ∧ newP = Val.obj
        [ ("careToBeTaken", getKey [("careToBeTaken", Val.str "Walk daily")] "careToBeTaken"),
          ("medicines",
            if truthy (getKey [("careToBeTaken", Val.str "Walk daily")] "medicines") then
              getKey [("careToBeTaken", Val.str "Walk daily")] "medicines"
            else Val.str ""),
          ("prescribedAt", Val.date 1706000000000 []),
          ("prescribedBy", getKey doctorA "name"),
          ("pdfFile", Val.str ("prescription_" ++ idText ++ "_"
              ++ toString (1706000000000 : Int) ++ ".pdf")) ]
      ∧ (treatedState (some doctorA) none).consultations = pre ++ treatedConsultation :: post
      ∧ (∀ x ∈ pre, sampleRuntime.looseEq (getKey x "id") "1" = false)
      ∧ (submitPrescription sampleRuntime 1706000000000 "1"
            [("careToBeTaken", Val.str "Walk daily")] (treatedState (some doctorA) none)).2
          = { treatedState (some doctorA) none with consultations := pre ++ c2 :: post }
      ∧ getKey c2 "prescription" = newP
      ∧ (∀ k, k ≠ "prescription" → getKey c2 k = getKey treatedConsultation k)
      ∧ newP.get "customPDFs" = Val.undef
      ∧ newP.get "sentToPatient" = Val.undef
      ∧ newP.get "sentAt" = Val.undef :=
  submitPrescription_replaces_prescription sampleRuntime 1706000000000 "1"
    [("careToBeTaken", Val.str "Walk daily")] (treatedState (some doctorA) none)
    doctorA treatedConsultation rfl rfl rfl rfl

/-! ## Uploading a prescription PDF -/

/-- C8, as the code has it: when the lookup returns a consultation `c` of the
logged-in doctor `d` and the request carries a file the upload middleware
accepts (field `pdfFile`, mimetype `application/pdf`, at most 10 MiB), the
file is stored as `custom_<now>-<draw><ext>` and
(1) if `c` has no prescription, the upload succeeds and gives `c` a
prescription whose careToBeTaken is the notes of the request when they are
non-empty and the fixed fallback text otherwise, with empty medicines,
prescribedAt, prescribedBy = `d.name` and customPDFs holding exactly the new
entry;
(2) if `c` has a prescription object whose customPDFs is a list, the upload
succeeds and appends the new entry at the end of that list;
(3) if `c` has a prescription object without customPDFs, the upload succeeds
and customPDFs becomes the list holding exactly the new entry;
in (2) and (3) every other property of the prescription (careToBeTaken,
medicines, prescribedAt, prescribedBy, pdfFile among them) is unchanged, and
in all cases every other consultation and every other property of `c` is
unchanged. The new entry is `{filename, originalName, uploadedAt, notes}`.
A file the middleware refuses is answered 500 and changes nothing. -/
theorem upload_appends_entry (rt : Runtime) (now : Int) (cid : String) (u : Upload)
    (body : Obj) (s : State) (d c : Obj)
    (hd : s.currentDoctor = some d)
    (hc : findConsultation rt s.consultations cid = some c)
    (hown : strictEq (getKey c "doctorId") (getKey d "id") = true)
    (hfield : u.fieldname = "pdfFile") (hmime : u.mimetype = "application/pdf")
    (hsize : u.size ≤ 10485760) :
    ∃ pre post stored entry ok,
      stored = "custom_" ++ toString now ++ "-" ++ toString u.draw
        ++ rt.extname u.originalname
      ∧ entry = Val.obj
        [ ("filename", Val.str stored),
          ("originalName", Val.str u.originalname),
          ("uploadedAt", Val.date now []),
          ("notes", if truthy (getKey body "notes") then getKey body "notes" else Val.str "") ]
      ∧ ok = Resp.json 200
          [ ("success", Val.bool true),
            ("message", Val.str "PDF uploaded successfully"),
            ("filename", Val.str stored) ]
      ∧ s.consultations = pre ++ c :: post
      ∧ (∀ x ∈ pre, rt.looseEq (getKey x "id") cid = false)
      ∧ (truthy (getKey c "prescription") = false →
          uploadPrescriptionPDF rt now cid (some u) body s
            = (ok, { s with
                uploads := s.uploads ++ [stored]
                consultations := pre ++ setKey c "prescription"
                  (Val.obj
                    [ ("careToBeTaken",
                        if truthy (getKey body "notes") then getKey body "notes"
                        else Val.str "Please refer to the attached prescription."),
                      ("medicines", Val.str ""),
                      ("prescribedAt", Val.date now []),
                      ("prescribedBy", getKey d "name"),
                      ("customPDFs", Val.arr [entry] []) ]) :: post }))
      ∧ (∀ p old props, getKey c "prescription" = Val.obj p →
          getKey p "customPDFs" = Val.arr old props →
          uploadPrescriptionPDF rt now cid (some u) body s
            = (ok, { s with
                uploads := s.uploads ++ [stored]
                consultations := pre ++ setKey c "prescription"
                  (Val.obj (setKey p "customPDFs" (Val.arr (old ++ [entry]) props))) :: post }))
      ∧ (∀ p, getKey c "prescription" = Val.obj p →
          truthy (getKey p "customPDFs") = false →
          uploadPrescriptionPDF rt now cid (some u) body s
            = (ok, { s with
                uploads := s.uploads ++ [stored]
                consultations := pre ++ setKey c "prescription"
                  (Val.obj (setKey p "customPDFs" (Val.arr [entry] []))) :: post }))
      ∧ (∀ (p : Obj) (v : Val) (k : String), k ≠ "customPDFs" →
          getKey (setKey p "customPDFs" v) k = getKey p k)
      ∧ (∀ (v : Val) (k : String), k ≠ "prescription" →
          getKey (setKey c "prescription" v) k = getKey c k)
      ∧ (∀ u2 : Upload,
          (u2.fieldname ≠ "pdfFile" ∨ u2.mimetype ≠ "application/pdf" ∨ 10485760 < u2.size) →
          uploadPrescriptionPDF rt now cid (some u2) body s = (Resp.serverError, s)) := by
  have hacc : uploadRefused u = false := (uploadRefused_false_iff u).mpr ⟨hfield, hmime, hsize⟩
  obtain ⟨pre, post, hl, hpre, _, hm⟩ :=
    find_split (fun x => rt.looseEq (getKey x "id") cid) s.consultations c hc
  have he : pdfEntry now (storedFile rt now u) body
      = Val.obj
        [ ("filename", Val.str (storageFilename rt now u)),
          ("originalName", Val.str u.originalname),
          ("uploadedAt", Val.date now []),
          ("notes", if truthy (getKey body "notes") then getKey body "notes"
              else Val.str "") ] := by
    simp [pdfEntry, storedFile, getKey, orElse]
  have hf : getKey (storedFile rt now u) "filename" = Val.str (storageFilename rt now u) := by
    simp [storedFile, getKey]
  refine ⟨pre, post, storageFilename rt now u, pdfEntry now (storedFile rt now u) body, _,
    rfl, he, rfl, hl, hpre, ?_, ?_, ?_, ?_, ?_, ?_⟩
  · intro hp
    simp [uploadPrescriptionPDF, uploadSingle, hacc, uploadHandler, hd, hc, hown, hf,
      attachPdf_placeholder now d _ body _ hp, storeConsultation, hm, orElse, fallbackCare]
  · intro p old props hp hlist
    simp [uploadPrescriptionPDF, uploadSingle, hacc, uploadHandler, hd, hc, hown, hp, hf,
      attachPdf_list now d _ body p old props hlist, storeConsultation, hm]
  · intro p hp hnone
    simp [uploadPrescriptionPDF, uploadSingle, hacc, uploadHandler, hd, hc, hown, hp, hf,
      attachPdf_fresh now d _ body p hnone, storeConsultation, hm]
  · intro p v k hk
    exact getKey_setKey_other _ _ _ _ hk
  · intro v k hk
    exact getKey_setKey_other _ _ _ _ hk
  · intro u2 hu2
    simp [uploadPrescriptionPDF, uploadSingle, (uploadRefused_true_iff u2).mpr hu2]

/-- Witness for C8: doctor A uploads a second PDF for the treated
consultation, whose prescription already lists one. -/
theorem upload_appends_entry_witness :
    ∃ pre post entry,
      entry = Val.obj
        [ ("filename", Val.str "custom_1705900000000-42.pdf"),
          ("originalName", Val.str "report.pdf"),
          ("uploadedAt", Val.date 1705900000000 []),
          ("notes", Val.str "") ]
      ∧ (treatedState (some doctorA) none).consultations = pre ++ treatedConsultation :: post
      ∧ ∀ p old props, getKey treatedConsultation "prescription" = Val.obj p →
          getKey p "customPDFs" = Val.arr old props →
          (uploadPrescriptionPDF sampleRuntime 1705900000000 "1" (some sampleUpload) []
              (treatedState (some doctorA) none)).2.consultations
            = pre ++ setKey treatedConsultation "prescription"
                (Val.obj (setKey p "customPDFs" (Val.arr (old ++ [entry]) props))) :: post := by
  obtain ⟨pre, post, stored, entry, ok, hs, he, _, hl, _, _, hlist, _⟩ :=
    upload_appends_entry sampleRuntime 1705900000000 "1" sampleUpload []
      (treatedState (some doctorA) none) doctorA treatedConsultation rfl rfl rfl rfl rfl
      (by decide)
  refine ⟨pre, post, entry, ?_, hl, ?_⟩
  · rw [he, hs]
    rfl
  · intro p old props hp hc
    rw [hlist p old props hp hc]

/-- C8 as stated fails twice: doctor A uploads a PDF with the notes
`Take after meals` for the seed consultation, which has no prescription; the
upload succeeds and the synthesized prescription has these notes as its
careToBeTaken, not the fixed fallback text. And when doctor A uploads a PNG
image, the request carries an uploaded file but the answer is 500 and the
ledger is unchanged. -/
theorem upload_placeholder_uses_notes :
    truthy (getKey seedConsultation "prescription") = false
    ∧ (uploadPrescriptionPDF sampleRuntime 1705900000000 "1" (some sampleUpload)
        [("notes", Val.str "Take after meals")] (sampleState (some doctorA) none)).1.status = 200
    ∧ (∃ c2,
        (uploadPrescriptionPDF sampleRuntime 1705900000000 "1" (some sampleUpload)
          [("notes", Val.str "Take after meals")] (sampleState (some doctorA) none)).2.consultations
          = [c2]
        ∧ (getKey c2 "prescription").get "careToBeTaken" = Val.str "Take after meals"
        ∧ (getKey c2 "prescription").get "careToBeTaken"
            ≠ Val.str "Please refer to the attached prescription.")
    ∧ uploadPrescriptionPDF sampleRuntime 1705900000000 "1" (some pngUpload) []
        (sampleState (some doctorA) none)
      = (Resp.serverError, sampleState (some doctorA) none) := by
  refine ⟨rfl, rfl, ⟨_, rfl, rfl, ?_⟩, rfl⟩
  intro h
  have h2 : Val.str "Take after meals" = Val.str "Please refer to the attached prescription." := h
  simp at h2

/-! ## The layout of the rendered prescription -/

theorem drawAll_all (steps : List (Option Val)) (h : ∀ st ∈ steps, st ≠ none) :
    drawAll steps = (steps.filterMap id, true) := by
  induction steps with
  | nil => rfl
  | cons st rest ih =>
    cases st with
    | none => exact absurd rfl (h none (by simp))
    | some v =>
      have hr := ih (fun x hx => h x (by simp [hx]))
      simp [drawAll, hr]

theorem drawAll_ok (steps : List (Option Val)) (h : (drawAll steps).2 = true) :
    ∀ st ∈ steps, st ≠ none := by
  induction steps with
  | nil => simp
  | cons st rest ih =>
    cases st with
    | none => simp [drawAll] at h
    | some v =>
      intro x hx
      rcases List.mem_cons.mp hx with rfl | hx2
      · simp
      · exact ih (by simpa [drawAll] using h) x hx2

theorem line_eq (rt : Runtime) (label : String) (v : Val) (suffix : String)
    (h : line rt label v suffix ≠ none) :
    line rt label v suffix = some (Val.str (label ++ textOf rt v ++ suffix))
      ∧ toStr rt v = some (textOf rt v) := by
  cases ht : toStr rt v with
  | none => simp [line, ht] at h
  | some t => simp [line, textOf, ht]

theorem passed_eq (rt : Runtime) (v : Val) (h : passed rt v ≠ none) :
    passed rt v = some v := by
  cases v <;> simp_all [passed]

theorem dateLine_eq (rt : Runtime) (v : Val) (h : dateLine rt v ≠ none) :
    dateLine rt v = some (Val.str ("Date: " ++ (rt.formatDate v).getD "")) := by
  cases ht : rt.formatDate v with
  | none => simp [dateLine, ht] at h
  | some t => simp [dateLine, ht]

/-- C7, as the code has it: for a consultation `c` all of whose text calls
evaluate (no field printed through a template literal raises when converted
to text), the text items drawn are, in this order and with nothing else, the
title block; the doctor section (heading, name, specialty, formatted
prescribedAt date); the patient section (heading, name, age, phone, email);
the medical-history section (heading, Current Illness, then the surgery
lines, then Diabetes History, then the allergies lines); the prescription
section (heading, caption, care-to-be-taken text, then the medicines lines);
the footer (transaction lines, signature line, doctor name,
`Digital Signature`). The surgery lines are none, or Recent Surgery alone, or
Recent Surgery and Time Since Surgery, and are present only if recentSurgery
is not `None`; Diabetes History shows `Not specified` when the field is
absent or empty; the Allergies line is drawn exactly when allergies is
truthy, that is present and non-empty; the Medicines heading and text exactly
when medicines is truthy (non-empty); the Transaction ID line exactly when
transactionId is truthy, that is present and non-empty. With a doctor logged
in, such a consultation found that has a prescription and a usable file name,
the handler streams and writes exactly these items. -/
theorem pdf_layout (rt : Runtime) (c : Obj)
    (hok : (drawAll (pdfSteps rt c)).2 = true) :
    (∃ surgery allergies medicines txn : List Val,
      drawAll (pdfSteps rt c)
        = ([ Val.str "MEDICAL PRESCRIPTION",
            Val.str "This is an official medical prescription" ]
          ++ [ Val.str "Doctor Information",
               Val.str ("Name: " ++ textOf rt (getKey c "doctorName")),
               Val.str ("Specialty: " ++ textOf rt (getKey c "doctorSpecialty")),
               Val.str ("Date: "
                 ++ (rt.formatDate ((getKey c "prescription").get "prescribedAt")).getD "") ]
          ++ [ Val.str "Patient Information",
               Val.str ("Name: " ++ textOf rt (getKey c "patientName")),
               Val.str ("Age: " ++ textOf rt (getKey c "patientAge") ++ " years"),
               Val.str ("Phone: " ++ textOf rt (getKey c "patientPhone")),
               Val.str ("Email: " ++ textOf rt (getKey c "patientEmail")) ]
          ++ ([ Val.str "Medical History",
                Val.str ("Current Illness: " ++ textOf rt (getKey c "currentIllness")) ]
              ++ surgery
              ++ [ Val.str ("Diabetes History: "
                    ++ textOf rt (orElse (getKey c "diabetesHistory") (Val.str "Not specified"))) ]
              ++ allergies)
          ++ ([ Val.str "PRESCRIPTION",
                Val.str "Care to be Taken:",
                (getKey c "prescription").get "careToBeTaken" ]
              ++ medicines)
          ++ (txn
              ++ [ Val.str (String.mk (List.replicate 60 '_')),
                   Val.str ("Dr. " ++ textOf rt (getKey c "doctorName")),
                   Val.str "Digital Signature" ]), true)
      ∧ (surgery = []
          ∨ surgery = [Val.str ("Recent Surgery: " ++ textOf rt (getKey c "recentSurgery"))]
          ∨ surgery = [ Val.str ("Recent Surgery: " ++ textOf rt (getKey c "recentSurgery")),
                        Val.str ("Time Since Surgery: "
                          ++ textOf rt (getKey c "surgeryTimespan")) ])
      ∧ (surgery ≠ [] → getKey c "recentSurgery" ≠ Val.str "None")
      ∧ allergies = (if truthy (getKey c "allergies") then
            [Val.str ("Allergies: " ++ textOf rt (getKey c "allergies"))] else [])
      ∧ medicines = (if truthy ((getKey c "prescription").get "medicines") then
            [Val.str "Medicines:", (getKey c "prescription").get "medicines"] else [])
      ∧ txn = (if truthy (getKey c "transactionId") then
            [Val.str ("Transaction ID: " ++ textOf rt (getKey c "transactionId"))] else []))
    ∧ (∀ k ∈ printedKeys, toStr rt (getKey c k) = some (textOf rt (getKey c k)))
    ∧ (rt.formatDate ((getKey c "prescription").get "prescribedAt")).isSome = true
    ∧ ((getKey c "diabetesHistory" = Val.undef ∨ getKey c "diabetesHistory" = Val.str "") →
        textOf rt (orElse (getKey c "diabetesHistory") (Val.str "Not specified"))
          = "Not specified")
    ∧ (∀ cid s d name, s.currentDoctor = some d →
        findConsultation rt s.consultations cid = some c →
        truthy (getKey c "prescription") = true →
        pdfTarget rt c = some name →
        generatePrescriptionPDF rt cid s
          = (Resp.pdf name (drawAll (pdfSteps rt c)).1,
              { s with written := s.written ++ [(name, (drawAll (pdfSteps rt c)).1)] })) := by
  have hall := drawAll_ok _ hok
  have h1 := line_eq _ _ _ _ (hall (line rt "Name: " (getKey c "doctorName") "")
    (by simp [pdfSteps]))
  have h2 := line_eq _ _ _ _ (hall (line rt "Specialty: " (getKey c "doctorSpecialty") "")
    (by simp [pdfSteps]))
  have h3n := hall (dateLine rt ((getKey c "prescription").get "prescribedAt"))
    (by simp [pdfSteps])
  have h3 := dateLine_eq _ _ h3n
  have h4 := line_eq _ _ _ _ (hall (line rt "Name: " (getKey c "patientName") "")
    (by simp [pdfSteps]))
  have h5 := line_eq _ _ _ _ (hall (line rt "Age: " (getKey c "patientAge") " years")
    (by simp [pdfSteps]))
  have h6 := line_eq _ _ _ _ (hall (line rt "Phone: " (getKey c "patientPhone") "")
    (by simp [pdfSteps]))
  have h7 := line_eq _ _ _ _ (hall (line rt "Email: " (getKey c "patientEmail") "")
    (by simp [pdfSteps]))
  have h8 := line_eq _ _ _ _ (hall (line rt "Current Illness: " (getKey c "currentIllness") "")
    (by simp [pdfSteps]))
  have h9 := line_eq _ _ _ _ (hall (line rt "Diabetes History: "
    (orElse (getKey c "diabetesHistory") (Val.str "Not specified")) "") (by simp [pdfSteps]))
  have h10 := line_eq _ _ _ _ (hall (line rt "Dr. " (getKey c "doctorName") "")
    (by simp [pdfSteps]))
  have hal : truthy (getKey c "allergies") = true →
      line rt "Allergies: " (getKey c "allergies") ""
        = some (Val.str ("Allergies: " ++ textOf rt (getKey c "allergies") ++ "")) :=
    fun h => (line_eq _ _ _ _ (hall _ (by simp [pdfSteps, h]))).1
  have hcare := passed_eq _ _ (hall (passed rt ((getKey c "prescription").get "careToBeTaken"))
    (by simp [pdfSteps]))
  have hmed : truthy ((getKey c "prescription").get "medicines") = true →
      passed rt ((getKey c "prescription").get "medicines")
        = some ((getKey c "prescription").get "medicines") :=
    fun h => passed_eq _ _ (hall _ (by simp [pdfSteps, h]))
  have htx : truthy (getKey c "transactionId") = true →
      line rt "Transaction ID: " (getKey c "transactionId") ""
        = some (Val.str ("Transaction ID: " ++ textOf rt (getKey c "transactionId") ++ "")) :=
    fun h => (line_eq _ _ _ _ (hall _ (by simp [pdfSteps, h]))).1
  refine ⟨?_, ?_, ?_, ?_, ?_⟩
  · rw [drawAll_all _ hall]
    refine ⟨List.filterMap id
        (if truthy (getKey c "recentSurgery")
            && !strictEq (getKey c "recentSurgery") (Val.str "None") then
          [line rt "Recent Surgery: " (getKey c "recentSurgery") ""]
          ++ (if truthy (getKey c "surgeryTimespan") then
              [line rt "Time Since Surgery: " (getKey c "surgeryTimespan") ""]
            else [])
        else []), _, _, _, ?_, ?_, ?_, rfl, rfl, rfl⟩
    · by_cases ha : truthy (getKey c "allergies") = true <;>
      by_cases ht : truthy (getKey c "transactionId") = true <;>
      by_cases hm : truthy ((getKey c "prescription").get "medicines") = true <;>
      simp [pdfSteps, List.filterMap_append, h1.1, h2.1, h3, h4.1, h5.1, h6.1, h7.1, h8.1,
        h9.1, h10.1, ha, ht, hm, hal, htx, hcare, hmed]
    · by_cases hrs : (truthy (getKey c "recentSurgery")
          && !strictEq (getKey c "recentSurgery") (Val.str "None")) = true
      · have hr := (line_eq _ _ _ _
          (hall (line rt "Recent Surgery: " (getKey c "recentSurgery") "")
            (by simp [pdfSteps, hrs]))).1
        by_cases hts : truthy (getKey c "surgeryTimespan") = true
        · have hs := (line_eq _ _ _ _
            (hall (line rt "Time Since Surgery: " (getKey c "surgeryTimespan") "")
              (by simp [pdfSteps, hrs, hts]))).1
          right; right
          simp [hrs, hts, hr, hs]
        · right; left
          simp [hrs, hts, hr]
      · left
        simp [hrs]
    · intro hne h
      rw [h] at hne
      simp [strictEq] at hne
  · intro k hk
    simp only [printedKeys, List.mem_cons, List.mem_singleton, List.not_mem_nil, or_false] at hk
    rcases hk with rfl | rfl | rfl | rfl | rfl | rfl | rfl
    · exact h1.2
    · exact h2.2
    · exact h4.2
    · exact h5.2
    · exact h6.2
    · exact h7.2
    · exact h8.2
  · cases hf : rt.formatDate ((getKey c "prescription").get "prescribedAt") with
    | none => simp [dateLine, hf] at h3n
    | some t => rfl
  · intro h
    rcases h with h | h <;> simp [h, orElse, truthy, toStr, textOf]
  · intro cid s d name hd hc hp ht
    simp [generatePrescriptionPDF, hd, hc, hp, ht, hok]

/-- Witness for C7: the treated consultation, whose recentSurgery is `None`
and whose allergies, medicines and transaction id are non-empty. -/
theorem pdf_layout_witness :
    (drawAll (pdfSteps sampleRuntime treatedConsultation)).2 = true
    ∧ (∀ k ∈ printedKeys, toStr sampleRuntime (getKey treatedConsultation k)
        = some (textOf sampleRuntime (getKey treatedConsultation k)))
    ∧ generatePrescriptionPDF sampleRuntime "1" (treatedState (some doctorA) none)
      = (Resp.pdf "prescription_1_1705800000000.pdf"
          (drawAll (pdfSteps sampleRuntime treatedConsultation)).1,
        { treatedState (some doctorA) none with
          written := [("prescription_1_1705800000000.pdf",
            (drawAll (pdfSteps sampleRuntime treatedConsultation)).1)] })
    ∧ (drawAll (pdfSteps sampleRuntime treatedConsultation)).1
      = [ Val.str "MEDICAL PRESCRIPTION",
          Val.str "This is an official medical prescription",
          Val.str "Doctor Information",
          Val.str "Name: Dr. Aayush Mali",
          Val.str "Specialty: Cardiologist",
          Val.str "Date: 21 January 2024",
          Val.str "Patient Information",
          Val.str "Name: Shreya Jain",
          Val.str "Age: 28 years",
          Val.str "Phone: +919988776655",
          Val.str "Email: shreya@demo.com",
          Val.str "Medical History",
          Val.str "Current Illness: I have chest pain and difficulty breathing for the past 2 days",
          Val.str "Diabetes History: non-diabetic",
          Val.str "Allergies: Penicillin allergy",
          Val.str "PRESCRIPTION",
          Val.str "Care to be Taken:",
          Val.str "Rest",
          Val.str "Medicines:",
          Val.str "Aspirin",
          Val.str "Transaction ID: TXN1234567890",
          Val.str "____________________________________________________________",
          Val.str "Dr. Dr. Aayush Mali",
          Val.str "Digital Signature" ] :=
  have h := pdf_layout sampleRuntime treatedConsultation rfl
  ⟨rfl, h.2.1,
    h.2.2.2.2 "1" (treatedState (some doctorA) none) doctorA
      "prescription_1_1705800000000.pdf" rfl rfl rfl rfl,
    rfl⟩

/-- C7 as stated fails twice. A consultation whose allergies and
transactionId are present but empty strings, as a blank form field arrives,
has a prescription, and neither an Allergies line nor a Transaction ID line
is drawn for it (both are drawn for the seed consultation once treated, whose
fields are non-empty). And a consultation with a prescription whose
`currentIllness` is the JSON object with an own `toString` property is not
rendered in full: the output file is opened, twelve items are drawn, the
Current Illness line raises and the answer is 500. -/
theorem blank_allergies_draw_no_line :
    hasKey blankFieldsConsultation "allergies" = true
    ∧ getKey blankFieldsConsultation "allergies" = Val.str ""
    ∧ hasKey blankFieldsConsultation "transactionId" = true
    ∧ getKey blankFieldsConsultation "transactionId" = Val.str ""
    ∧ truthy (getKey blankFieldsConsultation "prescription") = true
    ∧ (drawAll (pdfSteps sampleRuntime blankFieldsConsultation)).2 = true
    ∧ drawsLine "Allergies" (drawAll (pdfSteps sampleRuntime blankFieldsConsultation)).1 = false
    ∧ drawsLine "Transaction ID"
        (drawAll (pdfSteps sampleRuntime blankFieldsConsultation)).1 = false
    ∧ drawsLine "Allergies" (drawAll (pdfSteps sampleRuntime treatedConsultation)).1 = true
    ∧ drawsLine "Transaction ID"
        (drawAll (pdfSteps sampleRuntime treatedConsultation)).1 = true
    ∧ truthy (getKey objectIllnessConsultation "prescription") = true
    ∧ (generatePrescriptionPDF sampleRuntime "1" objectIllnessState).1 = Resp.serverError
    ∧ (generatePrescriptionPDF sampleRuntime "1" objectIllnessState).2.written
      = [ ("prescription_1_1705800000000.pdf",
          [ Val.str "MEDICAL PRESCRIPTION",
            Val.str "This is an official medical prescription",
            Val.str "Doctor Information",
            Val.str "Name: Dr. Aayush Mali",
            Val.str "Specialty: Cardiologist",
            Val.str "Date: 21 January 2024",
            Val.str "Patient Information",
            Val.str "Name: Shreya Jain",
            Val.str "Age: 28 years",
            Val.str "Phone: +919988776655",
            Val.str "Email: shreya@demo.com",
            Val.str "Medical History" ]) ] := by
  refine ⟨rfl, rfl, rfl, rfl, rfl, rfl, rfl, rfl, rfl, rfl, rfl, rfl, rfl⟩

/-! ## Uniqueness of emails and phones -/

theorem strictEq_of_eq_scalar (a b : Val) (hb : isScalar b = true) (h : a = b) :
    strictEq a b = true := by
  subst h
  cases a <;> simp_all [strictEq, isScalar]

theorem find_none_all {α : Type} (p : α → Bool) (l : List α)
    (h : (l.find? p).isSome = false) : ∀ x ∈ l, p x = false := by
  have h2 : l.find? p = none := by
    cases hf : l.find? p with
    | none => rfl
    | some y => simp [hf] at h
  intro x hx
  have := List.find?_eq_none.mp h2 x hx
  simpa using this

theorem find_some_of_mem {α : Type} (p : α → Bool) (l : List α) (x : α) (hx : x ∈ l)
    (hp : p x = true) : (l.find? p).isSome = true := by
  cases hf : l.find? p with
  | none =>
    have := List.find?_eq_none.mp hf x hx
    simp [hp] at this
  | some y => rfl

/-- Appending a record that shares no contact with the list keeps it distinct. -/
theorem distinctContacts_append (l : List Obj) (r : Obj) (h : distinctContacts l)
    (hnew : ∀ a ∈ l, ¬ sharesContact a r) : distinctContacts (l ++ [r]) := by
  unfold distinctContacts at *
  rw [List.pairwise_append]
  refine ⟨h, by simp, ?_⟩
  intro a ha b hb
  have hbr : b = r := by simpa using hb
  rw [hbr]
  exact hnew a ha

/-- A record the two scans of a signup let through shares no contact with
the list, when the email and phone of the body are primitives. -/
theorem scans_exclude_sharing (l : List Obj) (body r : Obj)
    (hs : scalarContacts body = true)
    (hre : getKey r "email" = getKey body "email")
    (hrp : getKey r "phone" = getKey body "phone")
    (he : (l.find? (fun d => strictEq (getKey d "email") (getKey body "email"))).isSome = false)
    (hp : (l.find? (fun d => strictEq (getKey d "phone") (getKey body "phone"))).isSome = false) :
    ∀ a ∈ l, ¬ sharesContact a r := by
  have hs2 : isScalar (getKey body "email") = true ∧ isScalar (getKey body "phone") = true := by
    simpa [scalarContacts] using hs
  intro a ha hsh
  have h1 := find_none_all _ _ he a ha
  have h2 := find_none_all _ _ hp a ha
  rcases hsh with h | h
  · rw [hre] at h
    rw [strictEq_of_eq_scalar _ _ hs2.1 h] at h1
    exact absurd h1 (by simp)
  · rw [hrp] at h
    rw [strictEq_of_eq_scalar _ _ hs2.2 h] at h2
    exact absurd h2 (by simp)

/-- What doctorSignUp does to the two lists: a rejection changes nothing, a
success appends one record with the email and phone of the body. -/
theorem doctorSignUp_lists (rt : Runtime) (now : Int) (body : Obj) (s : State)
    (hs : scalarContacts body = true) :
    (doctorSignUp rt now body s).2.patients = s.patients
    ∧ ((doctorSignUp rt now body s).2.doctors = s.doctors
      ∨ ∃ r, (doctorSignUp rt now body s).2.doctors = s.doctors ++ [r]
          ∧ ∀ a ∈ s.doctors, ¬ sharesContact a r) := by
  by_cases he : (s.doctors.find?
      (fun d => strictEq (getKey d "email") (getKey body "email"))).isSome = true
  · simp [doctorSignUp, he]
  · by_cases hp : (s.doctors.find?
        (fun d => strictEq (getKey d "phone") (getKey body "phone"))).isSome = true
    · simp [doctorSignUp, he, hp]
    · cases hy : rt.parseFloat (getKey body "yearsOfExperience") with
      | none => simp [doctorSignUp, he, hp, hy]
      | some years =>
        refine ⟨by simp [doctorSignUp, he, hp, hy],
          Or.inr ⟨_, by simp [doctorSignUp, he, hp, hy]; rfl, ?_⟩⟩
        exact scans_exclude_sharing _ body _ hs (by simp [getKey]) (by simp [getKey])
          (by simpa using he) (by simpa using hp)

/-- What patientSignUp does to the two lists. -/
theorem patientSignUp_lists (rt : Runtime) (now : Int) (body : Obj) (s : State)
    (hs : scalarContacts body = true) :
    (patientSignUp rt now body s).2.doctors = s.doctors
    ∧ ((patientSignUp rt now body s).2.patients = s.patients
      ∨ ∃ r, (patientSignUp rt now body s).2.patients = s.patients ++ [r]
          ∧ ∀ a ∈ s.patients, ¬ sharesContact a r) := by
  by_cases he : (s.patients.find?
      (fun d => strictEq (getKey d "email") (getKey body "email"))).isSome = true
  · simp [patientSignUp, he]
  · by_cases hp : (s.patients.find?
        (fun d => strictEq (getKey d "phone") (getKey body "phone"))).isSome = true
    · simp [patientSignUp, he, hp]
    · cases hsv : historyList (getKey body "surgeryHistory") with
      | none => simp [patientSignUp, he, hp, hsv]
      | some sv =>
        cases hi : historyList (getKey body "illnessHistory") with
        | none => simp [patientSignUp, he, hp, hsv, hi]
        | some iv =>
          cases hy : rt.parseInt (getKey body "age") with
          | none => simp [patientSignUp, he, hp, hsv, hi, hy]
          | some age =>
            refine ⟨by simp [patientSignUp, he, hp, hsv, hi, hy],
              Or.inr ⟨_, by simp [patientSignUp, he, hp, hsv, hi, hy]; rfl, ?_⟩⟩
            exact scans_exclude_sharing _ body _ hs (by simp [getKey]) (by simp [getKey])
              (by simpa using he) (by simpa using hp)

/-- The upload handler leaves both identity lists as they are. -/
theorem uploadHandler_frame (rt : Runtime) (now : Int) (cid : String) (file : Option Obj)
    (body : Obj) (s : State) :
    (uploadHandler rt now cid file body s).2.doctors = s.doctors
    ∧ (uploadHandler rt now cid file body s).2.patients = s.patients := by
  simp only [uploadHandler]
  repeat' split
  all_goals simp [storeConsultation]

/-- Every handler other than the two signups leaves both identity lists as
they are. -/
theorem step_identity_frame (rt : Runtime) (now : Int) (req : Request) (s : State)
    (hd : ∀ body, req ≠ Request.doctorSignUp body)
    (hp : ∀ body, req ≠ Request.patientSignUp body) :
    (step rt now req s).2.doctors = s.doctors
    ∧ (step rt now req s).2.patients = s.patients := by
  cases req with
  | doctorSignUp body => exact absurd rfl (hd body)
  | patientSignUp body => exact absurd rfl (hp body)
  | doctorSignIn body =>
    simp only [step, doctorSignIn]
    split <;> simp
  | patientSignIn body =>
    simp only [step, patientSignIn]
    split <;> simp
  | submitConsultation did body =>
    simp only [step, submitConsultation]
    repeat' split
    all_goals simp
  | submitPrescription cid body =>
    simp only [step, submitPrescription]
    repeat' split
    all_goals simp [storeConsultation]
  | generatePrescriptionPDF cid =>
    simp only [step, generatePrescriptionPDF]
    repeat' split
    all_goals simp
  | sendPrescriptionToPatient cid =>
    simp only [step, sendPrescriptionToPatient]
    repeat' split
    all_goals simp [storeConsultation]
  | uploadPrescriptionPDF cid upload body =>
    simp only [step, uploadPrescriptionPDF, uploadSingle]
    cases upload with
    | none => exact uploadHandler_frame rt now cid none body s
    | some u =>
      by_cases hu : uploadRefused u = true
      · simp [hu]
      · simp only [hu]
        exact uploadHandler_frame rt now cid _ body _
  | prescriptionPage =>
    simp only [step, prescriptionPage, doctorListing]
    split <;> simp
  | doctorAppointments =>
    simp only [step, doctorAppointments, doctorListing]
    split <;> simp
  | patientAppointments =>
    simp only [step, patientAppointments]
    split <;> simp
  | _ => simp [step, doctorLogout, patientLogout]

/-- One request keeps the contacts of both identity lists distinct, when a
signup has a primitive email and phone. -/
theorem step_keeps_distinct (rt : Runtime) (now : Int) (req : Request) (s : State)
    (hsd : ∀ body, req = Request.doctorSignUp body → scalarContacts body = true)
    (hsp : ∀ body, req = Request.patientSignUp body → scalarContacts body = true)
    (hd : distinctContacts s.doctors) (hp : distinctContacts s.patients) :
    distinctContacts (step rt now req s).2.doctors
    ∧ distinctContacts (step rt now req s).2.patients := by
  by_cases h1 : ∃ body, req = Request.doctorSignUp body
  · obtain ⟨body, rfl⟩ := h1
    obtain ⟨hpat, hdoc⟩ := doctorSignUp_lists rt now body s (hsd body rfl)
    refine ⟨?_, by simpa [step, hpat] using hp⟩
    rcases hdoc with h | ⟨r, h, hr⟩
    · simpa [step, h] using hd
    · simpa [step, h] using distinctContacts_append _ _ hd hr
  · by_cases h2 : ∃ body, req = Request.patientSignUp body
    · obtain ⟨body, rfl⟩ := h2
      obtain ⟨hdoc, hpat⟩ := patientSignUp_lists rt now body s (hsp body rfl)
      refine ⟨by simpa [step, hdoc] using hd, ?_⟩
      rcases hpat with h | ⟨r, h, hr⟩
      · simpa [step, h] using hp
      · simpa [step, h] using distinctContacts_append _ _ hp hr
    · obtain ⟨e1, e2⟩ := step_identity_frame rt now req s
        (fun body h => h1 ⟨body, h⟩) (fun body h => h2 ⟨body, h⟩)
      rw [e1, e2]
      exact ⟨hd, hp⟩

/-- A whole run of requests keeps the contacts of both lists distinct. -/
theorem run_keeps_distinct (rt : Runtime) (reqs : List (Int × Request)) (s : State)
    (hreq : signupsScalar reqs)
    (hd : distinctContacts s.doctors) (hp : distinctContacts s.patients) :
    distinctContacts (run rt reqs s).doctors ∧ distinctContacts (run rt reqs s).patients := by
  induction reqs generalizing s with
  | nil => exact ⟨hd, hp⟩
  | cons r rest ih =>
    obtain ⟨now, req⟩ := r
    have hr := hreq (now, req) (by simp)
    obtain ⟨h1, h2⟩ := step_keeps_distinct rt now req s hr.1 hr.2 hd hp
    exact ih _ (fun x hx => hreq x (by simp [hx])) h1 h2

/-- C3, as the code has it: starting from a doctor list and a patient list
in which no two records share an email or a phone, after any finite sequence
of requests, in particular of doctorSignUp and patientSignUp requests, in
which every signup has a primitive email and a primitive phone (a string, a
number, a boolean, `null`, or missing, that is `undefined`), no two doctor
records and no two patient records share an email or a phone; and such a
signup whose email or whose phone already occurs in its list is answered 400
and leaves the state unchanged, so it appends nothing. -/
theorem signups_keep_contacts_unique (rt : Runtime) (reqs : List (Int × Request)) (s : State)
    (hreq : signupsScalar reqs)
    (hd : distinctContacts s.doctors) (hp : distinctContacts s.patients) :
    distinctContacts (run rt reqs s).doctors
    ∧ distinctContacts (run rt reqs s).patients
    ∧ (∀ now body s0, scalarContacts body = true →
        (∃ r ∈ s0.doctors, getKey r "email" = getKey body "email"
          ∨ getKey r "phone" = getKey body "phone") →
        (doctorSignUp rt now body s0).1.status = 400 ∧ (doctorSignUp rt now body s0).2 = s0)
    ∧ (∀ now body s0, scalarContacts body = true →
        (∃ r ∈ s0.patients, getKey r "email" = getKey body "email"
          ∨ getKey r "phone" = getKey body "phone") →
        (patientSignUp rt now body s0).1.status = 400
          ∧ (patientSignUp rt now body s0).2 = s0) := by
  obtain ⟨h1, h2⟩ := run_keeps_distinct rt reqs s hreq hd hp
  refine ⟨h1, h2, ?_, ?_⟩
  · intro now body s0 hs hex
    have hs2 : isScalar (getKey body "email") = true
        ∧ isScalar (getKey body "phone") = true := by
      simpa [scalarContacts] using hs
    obtain ⟨r, hr, hor⟩ := hex
    by_cases he : (s0.doctors.find?
        (fun d => strictEq (getKey d "email") (getKey body "email"))).isSome = true
    · simp [doctorSignUp, he, Resp.status]
    · have hph : (s0.doctors.find?
          (fun d => strictEq (getKey d "phone") (getKey body "phone"))).isSome = true := by
        rcases hor with h | h
        · exact absurd (find_some_of_mem _ _ r hr (strictEq_of_eq_scalar _ _ hs2.1 h)) he
        · exact find_some_of_mem _ _ r hr (strictEq_of_eq_scalar _ _ hs2.2 h)
      simp [doctorSignUp, he, hph, Resp.status]
  · intro now body s0 hs hex
    have hs2 : isScalar (getKey body "email") = true
        ∧ isScalar (getKey body "phone") = true := by
      simpa [scalarContacts] using hs
    obtain ⟨r, hr, hor⟩ := hex
    by_cases he : (s0.patients.find?
        (fun d => strictEq (getKey d "email") (getKey body "email"))).isSome = true
    · simp [patientSignUp, he, Resp.status]
    · have hph : (s0.patients.find?
          (fun d => strictEq (getKey d "phone") (getKey body "phone"))).isSome = true := by
        rcases hor with h | h
        · exact absurd (find_some_of_mem _ _ r hr (strictEq_of_eq_scalar _ _ hs2.1 h)) he
        · exact find_some_of_mem _ _ r hr (strictEq_of_eq_scalar _ _ hs2.2 h)
      simp [patientSignUp, he, hph, Resp.status]

/-- Witness for C3: from the two sample doctors and one patient, the third
doctor and the first doctor without email are appended, the second doctor
without email is rejected, and the contacts stay distinct. -/
theorem signups_keep_contacts_unique_witness :
    distinctContacts (run sampleRuntime sampleSignups (sampleState none none)).doctors
    ∧ distinctContacts (run sampleRuntime sampleSignups (sampleState none none)).patients
    ∧ (run sampleRuntime sampleSignups (sampleState none none)).doctors.length = 4
    ∧ (run sampleRuntime sampleSignups (sampleState none none)).patients.length = 2 :=
  have h := signups_keep_contacts_unique sampleRuntime sampleSignups (sampleState none none)
    (by
      intro r hr
      simp only [sampleSignups, List.mem_cons, List.mem_singleton, List.not_mem_nil,
        or_false] at hr
      rcases hr with rfl | rfl | rfl | rfl <;>
        exact ⟨fun body h => by cases h <;> rfl, fun body h => by cases h <;> rfl⟩)
    (by simp [distinctContacts, sampleState, sharesContact, doctorA, doctorB, getKey])
    (by simp [distinctContacts, sampleState])
  ⟨h.1, h.2.1, rfl, rfl⟩

/-- C3 as stated fails: two doctorSignUp requests carry the same array-valued
email, as `email[]=dup@demo.com` parses; `===` compares the two arrays by
reference, both signups are accepted, and the doctor list ends with two
records that share that email. -/
theorem array_email_is_accepted_twice :
    distinctContacts (sampleState none none).doctors
    ∧ ∃ r3 r4,
        (run sampleRuntime arrayEmailSignups (sampleState none none)).doctors
          = [doctorA, doctorB, r3, r4]
        ∧ getKey r3 "email" = Val.arr [Val.str "dup@demo.com"] []
        ∧ getKey r4 "email" = getKey r3 "email"
        ∧ sharesContact r3 r4
        ∧ ¬ distinctContacts
            (run sampleRuntime arrayEmailSignups (sampleState none none)).doctors := by
  refine ⟨by simp [distinctContacts, sampleState, sharesContact, doctorA, doctorB, getKey],
    _, _, rfl, rfl, rfl, Or.inl rfl, ?_⟩
  intro h
  have h2 : distinctContacts
      [doctorA, doctorB,
        [ ("id", Val.num 3), ("name", Val.str "Dr. Dup"),
          ("email", Val.arr [Val.str "dup@demo.com"] []), ("password", Val.str "pw"),
          ("phone", Val.str "+914444444444"), ("specialty", Val.str "Surgeon"),
          ("yearsOfExperience", Val.num 3), ("profilePicture", Val.null),
          ("createdAt", Val.date 1706000000000 []) ],
        [ ("id", Val.num 4), ("name", Val.str "Dr. Dup"),
          ("email", Val.arr [Val.str "dup@demo.com"] []), ("password", Val.str "pw"),
          ("phone", Val.str "+915555555555"), ("specialty", Val.str "Surgeon"),
          ("yearsOfExperience", Val.num 3), ("profilePicture", Val.null),
          ("createdAt", Val.date 1706000001000 []) ]] := h
  simp [distinctContacts, sharesContact, getKey] at h2

/-! ## Creating a consultation -/

theorem hasKey_setKey_other (o : Obj) (k k2 : String) (v : Val) (h : k2 ≠ k) :
    hasKey (setKey o k v) k2 = hasKey o k2 := by
  induction o with
  | nil => simp [setKey, hasKey, Ne.symm h]
  | cons kv rest ih =>
    obtain ⟨k1, w⟩ := kv
    by_cases h1 : k1 = k
    · subst h1
      simp [setKey, hasKey, Ne.symm h]
    · by_cases h2 : k1 = k2
      · subst h2
        simp [setKey, hasKey, h1]
      · simp [setKey, hasKey, h1, h2, ih]

/-- A key the spread object lacks keeps the value of the base object. -/
theorem getKey_spread_absent (base extra : Obj) (k : String) (h : hasKey extra k = false) :
    getKey (spread base extra) k = getKey base k := by
  induction extra generalizing base with
  | nil => rfl
  | cons kv rest ih =>
    obtain ⟨k1, w⟩ := kv
    have hk : k1 ≠ k := by
      intro h1
      simp [hasKey, h1] at h
    have hrest : hasKey rest k = false := by
      simpa [hasKey, hk] using h
    have hstep : spread base ((k1, w) :: rest) = spread (setKey base k1 w) rest := rfl
    rw [hstep, ih _ hrest]
    exact getKey_setKey_other _ _ _ _ (Ne.symm hk)

/-- The part of C4 the code keeps: a logged-in patient `p` and a path
parameter matching doctor `doc` make submitConsultation answer 200 and append
exactly one record at the end of the ledger, in which every server-computed
key the body does not name has the server value (`id` = n + 1, the ids and
display fields of `p` and `doc`); with no matching doctor the answer is 404
and nothing is appended. -/
theorem submitConsultation_appends_record (rt : Runtime) (now : Int) (did : String)
    (body : Obj) (s : State) (p : Obj) (hp : s.currentPatient = some p) :
    (findDoctor rt s.doctors did = none →
      submitConsultation rt now did body s
        = (Resp.json 404 (errorBody "Doctor not found"), s))
    ∧ (∀ doc, findDoctor rt s.doctors did = some doc →
        ∃ c2, submitConsultation rt now did body s
            = (Resp.json 200 [("success", Val.bool true)],
                { s with consultations := s.consultations ++ [c2] })
          ∧ (hasKey body "id" = false →
              getKey c2 "id" = Val.num (s.consultations.length + 1))
          ∧ (hasKey body "patientId" = false → getKey c2 "patientId" = getKey p "id")
          ∧ (hasKey body "doctorId" = false → getKey c2 "doctorId" = getKey doc "id")
          ∧ (hasKey body "patientName" = false → getKey c2 "patientName" = getKey p "name")
          ∧ (hasKey body "patientEmail" = false → getKey c2 "patientEmail" = getKey p "email")
          ∧ (hasKey body "patientAge" = false → getKey c2 "patientAge" = getKey p "age")
          ∧ (hasKey body "patientPhone" = false → getKey c2 "patientPhone" = getKey p "phone")
          ∧ (hasKey body "doctorName" = false → getKey c2 "doctorName" = getKey doc "name")
          ∧ (hasKey body "doctorSpecialty" = false →
              getKey c2 "doctorSpecialty" = getKey doc "specialty")
          ∧ (∀ k, k ≠ "submittedAt" → k ∉ serverKeys → hasKey body k = true →
              hasKey c2 k = true)) := by
  constructor
  · intro h
    simp [submitConsultation, hp, h]
  · intro doc h
    refine ⟨setKey (spread
        [ ("id", Val.num (s.consultations.length + 1)),
          ("patientId", getKey p "id"),
          ("doctorId", getKey doc "id"),
          ("patientName", getKey p "name"),
          ("patientEmail", getKey p "email"),
          ("patientAge", getKey p "age"),
          ("patientPhone", getKey p "phone"),
          ("doctorName", getKey doc "name"),
          ("doctorSpecialty", getKey doc "specialty") ] body) "submittedAt" (Val.date now []),
      by simp [submitConsultation, hp, h], ?_, ?_, ?_, ?_, ?_, ?_, ?_, ?_, ?_, ?_⟩
    all_goals try
      (intro hk
       rw [getKey_setKey_other _ _ _ _ (by decide), getKey_spread_absent _ _ _ hk]
       simp [getKey])
    intro k hk1 hk2 hk3
    rw [hasKey_setKey_other _ _ _ _ hk1]
    clear hk1
    simp only [serverKeys, List.mem_cons, List.mem_singleton, not_or, List.not_mem_nil,
      not_false_eq_true, and_true] at hk2
    generalize hb : ([ ("id", Val.num (↑s.consultations.length + 1)),
          ("patientId", getKey p "id"),
          ("doctorId", getKey doc "id"),
          ("patientName", getKey p "name"),
          ("patientEmail", getKey p "email"),
          ("patientAge", getKey p "age"),
          ("patientPhone", getKey p "phone"),
          ("doctorName", getKey doc "name"),
          ("doctorSpecialty", getKey doc "specialty") ] : Obj) = base
    clear hb
    induction body generalizing base with
    | nil => simp [hasKey] at hk3
    | cons kv rest ih =>
      obtain ⟨k1, w⟩ := kv
      have hstep : spread base ((k1, w) :: rest) = spread (setKey base k1 w) rest := rfl
      rw [hstep]
      by_cases hrest : hasKey rest k = true
      · exact ih hrest _
      · have hk1 : k1 = k := by
          by_contra hne
          simp [hasKey, hne, hrest] at hk3
        subst hk1
        have hr : hasKey rest k1 = false := by simpa using hrest
        clear ih hk3 hrest hstep hk2
        have hset : hasKey (setKey base k1 w) k1 = true := by
          clear hr
          induction base with
          | nil => simp [setKey, hasKey]
          | cons kv2 rest2 ih2 =>
            obtain ⟨k2, w2⟩ := kv2
            by_cases h2 : k2 = k1
            · simp [setKey, hasKey, h2]
            · simp [setKey, hasKey, h2, ih2]
        generalize setKey base k1 w = base2 at hset
        induction rest generalizing base2 with
        | nil => exact hset
        | cons kv3 rest3 ih3 =>
          obtain ⟨k3, w3⟩ := kv3
          have hk3 : k3 ≠ k1 := by
            intro h3
            simp [hasKey, h3] at hr
          have hr3 : hasKey rest3 k1 = false := by simpa [hasKey, hk3] using hr
          have hstep3 : spread base2 ((k3, w3) :: rest3) = spread (setKey base2 k3 w3) rest3 :=
            rfl
          rw [hstep3]
          apply ih3 hr3
          rw [hasKey_setKey_other _ _ _ _ (Ne.symm hk3)]
          exact hset

/-- C4 fails on the code: patient S is logged in, the ledger holds one
consultation and the path parameter `1` matches doctor A (id 1), but the body
names `id`, `patientId`, `doctorId` and `doctorName`, and the appended record
carries the values of the body: id 99 instead of 2, patientId 7 instead of 1,
doctorId 2 instead of 1, doctorName `Dr. B`. -/
theorem submitConsultation_body_overrides_server_fields :
    (sampleState none (some patientS)).currentPatient = some patientS
    ∧ (sampleState none (some patientS)).consultations.length = 1
    ∧ findDoctor sampleRuntime (sampleState none (some patientS)).doctors "1" = some doctorA
    ∧ ∃ c2,
        (submitConsultation sampleRuntime 1706000000000 "1" forgedBody
            (sampleState none (some patientS))).2.consultations = [seedConsultation, c2]
        ∧ getKey c2 "id" = Val.num 99
        ∧ getKey c2 "patientId" = Val.num 7
        ∧ getKey c2 "doctorId" = Val.num 2
        ∧ getKey c2 "doctorName" = Val.str "Dr. B"
        ∧ getKey c2 "id" ≠ Val.num 2
        ∧ getKey c2 "patientId" ≠ getKey patientS "id"
        ∧ getKey c2 "doctorId" ≠ getKey doctorA "id"
        ∧ getKey c2 "doctorName" ≠ getKey doctorA "name" := by
  refine ⟨rfl, rfl, rfl, _, rfl, rfl, rfl, rfl, rfl, ?_, ?_, ?_, ?_⟩
  · intro h
    have h2 : Val.num 99 = Val.num 2 := h
    simp at h2
  · intro h
    have h2 : Val.num 7 = Val.num 1 := h
    simp at h2
  · intro h
    have h2 : Val.num 2 = Val.num 1 := h
    simp at h2
  · intro h
    have h2 : Val.str "Dr. B" = Val.str "Dr. Aayush Mali" := h
    simp at h2

/-! ## Who can change a prescription -/

/-- In a ledger that differs at one record only, a position whose
prescription differs is the position of that record. -/
theorem prescriptionAt_change (pre post : List Obj) (c c2 : Obj) (i : Nat)
    (h : prescriptionAt (pre ++ c2 :: post) i ≠ prescriptionAt (pre ++ c :: post) i) :
    (pre ++ c2 :: post)[i]? = some c2 := by
  induction pre generalizing i with
  | nil =>
    cases i with
    | zero => simp
    | succ j => simp [prescriptionAt] at h
  | cons x xs ih =>
    cases i with
    | zero => simp [prescriptionAt] at h
    | succ j =>
      have h2 : prescriptionAt (xs ++ c2 :: post) j ≠ prescriptionAt (xs ++ c :: post) j := by
        simpa [prescriptionAt] using h
      simpa using ih j h2

/-- The ledger after submitPrescription is the ledger before it, or differs
in the prescription of one consultation of the logged-in doctor. -/
theorem submitPrescription_ledger (rt : Runtime) (now : Int) (cid : String) (body : Obj)
    (s : State) :
    (submitPrescription rt now cid body s).2.consultations = s.consultations
    ∨ ∃ d c pre post v, s.currentDoctor = some d
        ∧ strictEq (getKey c "doctorId") (getKey d "id") = true
        ∧ s.consultations = pre ++ c :: post
        ∧ (submitPrescription rt now cid body s).2.consultations
            = pre ++ setKey c "prescription" v :: post := by
  cases hcd : s.currentDoctor with
  | none => simp [submitPrescription, hcd]
  | some d =>
    cases hc : findConsultation rt s.consultations cid with
    | none => simp [submitPrescription, hcd, hc]
    | some c =>
      by_cases hown : strictEq (getKey c "doctorId") (getKey d "id") = true
      · cases hb : careBlank (getKey body "careToBeTaken") with
        | none => simp [submitPrescription, hcd, hc, hown, hb]
        | some b =>
          cases b with
          | true => simp [submitPrescription, hcd, hc, hown, hb]
          | false =>
            cases hn : prescriptionFileName rt now c with
            | none => simp [submitPrescription, hcd, hc, hown, hb, hn]
            | some name =>
              obtain ⟨pre, post, hl, _, _, hm⟩ :=
                find_split (fun x => rt.looseEq (getKey x "id") cid) s.consultations c hc
              exact Or.inr ⟨d, c, pre, post, newPrescription now d body name, rfl, hown, hl,
                by simp [submitPrescription, hcd, hc, hown, hb, hn, storeConsultation, hm]⟩
      · simp [submitPrescription, hcd, hc, hown]

/-- The ledger after sendPrescriptionToPatient is the ledger before it, or
differs in the prescription of one consultation of the logged-in doctor. -/
theorem sendPrescription_ledger (rt : Runtime) (now : Int) (cid : String) (s : State) :
    (sendPrescriptionToPatient rt now cid s).2.consultations = s.consultations
    ∨ ∃ d c pre post v, s.currentDoctor = some d
        ∧ strictEq (getKey c "doctorId") (getKey d "id") = true
        ∧ s.consultations = pre ++ c :: post
        ∧ (sendPrescriptionToPatient rt now cid s).2.consultations
            = pre ++ setKey c "prescription" v :: post := by
  cases hcd : s.currentDoctor with
  | none => simp [sendPrescriptionToPatient, hcd]
  | some d =>
    cases hc : findConsultation rt s.consultations cid with
    | none => simp [sendPrescriptionToPatient, hcd, hc]
    | some c =>
      by_cases hp : truthy (getKey c "prescription") = true
      · by_cases hown : strictEq (getKey c "doctorId") (getKey d "id") = true
        · cases hm2 : markSent now (getKey c "prescription") with
          | none => simp [sendPrescriptionToPatient, hcd, hc, hown, hp, hm2]
          | some p2 =>
            obtain ⟨pre, post, hl, _, _, hm⟩ :=
              find_split (fun x => rt.looseEq (getKey x "id") cid) s.consultations c hc
            refine Or.inr ⟨d, c, pre, post, p2, rfl, hown, hl, ?_⟩
            cases hmsg : sentMessage rt c <;>
              simp [sendPrescriptionToPatient, hcd, hc, hown, hp, hm2, hmsg, storeConsultation, hm]
        · simp [sendPrescriptionToPatient, hcd, hc, hown, hp]
      · simp [sendPrescriptionToPatient, hcd, hc, hp]

/-- The ledger after the upload handler is the ledger before it, or differs
in the prescription of one consultation of the logged-in doctor. -/
theorem uploadHandler_ledger (rt : Runtime) (now : Int) (cid : String)
    (file : Option Obj) (body : Obj) (s : State) :
    (uploadHandler rt now cid file body s).2.consultations = s.consultations
    ∨ ∃ d c pre post v, s.currentDoctor = some d
        ∧ strictEq (getKey c "doctorId") (getKey d "id") = true
        ∧ s.consultations = pre ++ c :: post
        ∧ (uploadHandler rt now cid file body s).2.consultations
            = pre ++ setKey c "prescription" v :: post := by
  cases hcd : s.currentDoctor with
  | none => simp [uploadHandler, hcd]
  | some d =>
    cases hc : findConsultation rt s.consultations cid with
    | none => simp [uploadHandler, hcd, hc]
    | some c =>
      by_cases hown : strictEq (getKey c "doctorId") (getKey d "id") = true
      · cases file with
        | none => simp [uploadHandler, hcd, hc, hown]
        | some f =>
          cases ha : attachPdf now d f body (getKey c "prescription") with
          | none => simp [uploadHandler, hcd, hc, hown, ha]
          | some p2 =>
            obtain ⟨pre, post, hl, _, _, hm⟩ :=
              find_split (fun x => rt.looseEq (getKey x "id") cid) s.consultations c hc
            exact Or.inr ⟨d, c, pre, post, p2, rfl, hown, hl,
              by simp [uploadHandler, hcd, hc, hown, ha, storeConsultation, hm]⟩
      · simp [uploadHandler, hcd, hc, hown]

/-- The ledger after uploadPrescriptionPDF is the ledger before it, or
differs in the prescription of one consultation of the logged-in doctor. -/
theorem uploadPrescription_ledger (rt : Runtime) (now : Int) (cid : String)
    (upload : Option Upload) (body : Obj) (s : State) :
    (uploadPrescriptionPDF rt now cid upload body s).2.consultations = s.consultations
    ∨ ∃ d c pre post v, s.currentDoctor = some d
        ∧ strictEq (getKey c "doctorId") (getKey d "id") = true
        ∧ s.consultations = pre ++ c :: post
        ∧ (uploadPrescriptionPDF rt now cid upload body s).2.consultations
            = pre ++ setKey c "prescription" v :: post := by
  cases upload with
  | none =>
    simpa [uploadPrescriptionPDF, uploadSingle] using uploadHandler_ledger rt now cid none body s
  | some u =>
    by_cases hu : uploadRefused u = true
    · simp [uploadPrescriptionPDF, uploadSingle, hu]
    · simpa [uploadPrescriptionPDF, uploadSingle, hu] using
        uploadHandler_ledger rt now cid (some (storedFile rt now u)) body
          { s with uploads := s.uploads ++ [storageFilename rt now u] }

/-- Appending a record without prescription changes no prescription. -/
theorem prescriptionAt_append_plain (cs : List Obj) (x : Obj) (i : Nat)
    (hx : getKey x "prescription" = Val.undef) :
    prescriptionAt (cs ++ [x]) i = prescriptionAt cs i := by
  induction cs generalizing i with
  | nil =>
    cases i with
    | zero => simp [prescriptionAt, hx]
    | succ j => simp [prescriptionAt]
  | cons y ys ih =>
    cases i with
    | zero => simp [prescriptionAt]
    | succ j =>
      have := ih j
      simpa [prescriptionAt] using this

/-- The ledger after submitConsultation is the ledger before it, or the
ledger with one record appended whose prescription is whatever the body
gives under the key `prescription`. -/
theorem submitConsultation_ledger (rt : Runtime) (now : Int) (did : String) (body : Obj)
    (s : State) :
    (submitConsultation rt now did body s).2.consultations = s.consultations
    ∨ ∃ c2, (submitConsultation rt now did body s).2.consultations = s.consultations ++ [c2]
        ∧ (hasKey body "prescription" = false → getKey c2 "prescription" = Val.undef) := by
  cases hp : s.currentPatient with
  | none => simp [submitConsultation, hp]
  | some p =>
    cases hdoc : findDoctor rt s.doctors did with
    | none => simp [submitConsultation, hp, hdoc]
    | some doc =>
      refine Or.inr ⟨setKey (spread
          [ ("id", Val.num (s.consultations.length + 1)),
            ("patientId", getKey p "id"),
            ("doctorId", getKey doc "id"),
            ("patientName", getKey p "name"),
            ("patientEmail", getKey p "email"),
            ("patientAge", getKey p "age"),
            ("patientPhone", getKey p "phone"),
            ("doctorName", getKey doc "name"),
            ("doctorSpecialty", getKey doc "specialty") ] body) "submittedAt" (Val.date now []),
        by simp [submitConsultation, hp, hdoc], ?_⟩
      intro hk
      rw [getKey_setKey_other _ _ _ _ (by decide), getKey_spread_absent _ _ _ hk]
      simp [getKey]

/-- The part of C5 the code keeps: for every state and every single request
other than a submitConsultation whose body names `prescription`, a
consultation whose prescription after the request differs from what it was
before (`undefined` standing for no consultation or no prescription) is a
consultation of the doctor logged in when the request is handled. -/
theorem prescription_changes_only_by_owner (rt : Runtime) (now : Int) (req : Request)
    (s : State) (i : Nat)
    (hreq : ∀ did body, req = Request.submitConsultation did body →
      hasKey body "prescription" = false)
    (hchg : prescriptionAt (step rt now req s).2.consultations i
      ≠ prescriptionAt s.consultations i) :
    ∃ d c2, s.currentDoctor = some d
      ∧ (step rt now req s).2.consultations[i]? = some c2
      ∧ strictEq (getKey c2 "doctorId") (getKey d "id") = true := by
  have owner : ∀ cs2 : List Obj,
      (cs2 = s.consultations
        ∨ ∃ d c pre post v, s.currentDoctor = some d
          ∧ strictEq (getKey c "doctorId") (getKey d "id") = true
          ∧ s.consultations = pre ++ c :: post
          ∧ cs2 = pre ++ setKey c "prescription" v :: post) →
      prescriptionAt cs2 i ≠ prescriptionAt s.consultations i →
      ∃ d c2, s.currentDoctor = some d ∧ cs2[i]? = some c2
        ∧ strictEq (getKey c2 "doctorId") (getKey d "id") = true := by
    intro cs2 h hne
    rcases h with h | ⟨d, c, pre, post, v, hd, hown, hl, h2⟩
    · rw [h] at hne
      exact absurd rfl hne
    · rw [h2, hl] at hne
      refine ⟨d, setKey c "prescription" v, hd, ?_, ?_⟩
      · rw [h2]
        exact prescriptionAt_change pre post c _ i hne
      · rw [getKey_setKey_other _ _ _ _ (by decide)]
        exact hown
  have same : (step rt now req s).2.consultations = s.consultations →
      ∃ d c2, s.currentDoctor = some d
        ∧ (step rt now req s).2.consultations[i]? = some c2
        ∧ strictEq (getKey c2 "doctorId") (getKey d "id") = true := by
    intro h
    rw [h] at hchg
    exact absurd rfl hchg
  cases req with
  | submitConsultation did body =>
    have hk := hreq did body rfl
    rcases submitConsultation_ledger rt now did body s with h | ⟨c2, h, hc2⟩
    · exact same h
    · exfalso
      apply hchg
      simp only [step]
      rw [h]
      exact prescriptionAt_append_plain _ _ _ (hc2 hk)
  | submitPrescription cid body =>
    exact owner _ (submitPrescription_ledger rt now cid body s) hchg
  | sendPrescriptionToPatient cid =>
    exact owner _ (sendPrescription_ledger rt now cid s) hchg
  | uploadPrescriptionPDF cid upload body =>
    exact owner _ (uploadPrescription_ledger rt now cid upload body s) hchg
  | doctorSignUp body =>
    apply same
    simp only [step, doctorSignUp]
    repeat' split
    all_goals simp
  | patientSignUp body =>
    apply same
    simp only [step, patientSignUp]
    repeat' split
    all_goals simp
  | doctorSignIn body =>
    apply same
    simp only [step, doctorSignIn]
    split <;> simp
  | patientSignIn body =>
    apply same
    simp only [step, patientSignIn]
    split <;> simp
  | generatePrescriptionPDF cid =>
    apply same
    simp only [step, generatePrescriptionPDF]
    repeat' split
    all_goals simp
  | prescriptionPage =>
    apply same
    simp only [step, prescriptionPage, doctorListing]
    split <;> simp
  | doctorAppointments =>
    apply same
    simp only [step, doctorAppointments, doctorListing]
    split <;> simp
  | patientAppointments =>
    apply same
    simp only [step, patientAppointments]
    split <;> simp
  | _ => exact same (by simp [step, doctorLogout, patientLogout])

/-- C5 fails on the code: no doctor is logged in, patient S submits a
consultation for doctor A whose body carries a `prescription` object, and the
ledger gains a consultation that comes into existence with that
prescription. -/
theorem patient_request_creates_prescription :
    (sampleState none (some patientS)).currentDoctor = none
    ∧ prescriptionAt (sampleState none (some patientS)).consultations 1 = Val.undef
    ∧ ∃ c2,
        (step sampleRuntime 1706000000000 (Request.submitConsultation "1" injectedBody)
            (sampleState none (some patientS))).2.consultations = [seedConsultation, c2]
        ∧ getKey c2 "doctorId" = Val.num 1
        ∧ truthy (getKey c2 "prescription") = true
        ∧ getKey c2 "prescription"
            = Val.obj
                [ ("careToBeTaken", Val.str "Unlimited refills"),
                  ("medicines", Val.str "Morphine"),
                  ("prescribedBy", Val.str "Dr. Aayush Mali") ]
        ∧ prescriptionAt
            (step sampleRuntime 1706000000000 (Request.submitConsultation "1" injectedBody)
              (sampleState none (some patientS))).2.consultations 1
          ≠ prescriptionAt (sampleState none (some patientS)).consultations 1
        ∧ (step sampleRuntime 1706000000000 (Request.submitConsultation "1" injectedBody)
            (sampleState none (some patientS))).2.currentDoctor = none := by
  refine ⟨rfl, rfl, _, rfl, rfl, rfl, rfl, ?_, rfl⟩
  intro h
  have h2 : Val.obj
      [ ("careToBeTaken", Val.str "Unlimited refills"),
        ("medicines", Val.str "Morphine"),
        ("prescribedBy", Val.str "Dr. Aayush Mali") ] = Val.undef := h
  simp at h2

end IdeaMagix
